import Mathlib

/-! Controller fan regulator (`Marlin/src/feature/controllerfan.cpp`).

A shallow embedding of `ControllerFan::set_fan_speed` and
`ControllerFan::update`.  `millis_t` is a 32-bit unsigned integer and
`speed` an 8-bit unsigned integer; both are natural numbers here and every
store that can leave the range is reduced modulo `2^32` resp. `256`.
Compile-time switches (`#if`, `TERN0`, `ENABLED`) are fields of `Config`.
-/

namespace ControllerFan

/-- Build configuration: the preprocessor constants and switches that
`controllerfan.cpp` reads but does not define. -/
structure Config where
  /-- `CONTROLLERFAN_SPEED_MIN`, the floor used by `set_fan_speed`. -/
  CONTROLLERFAN_SPEED_MIN : Nat
  /-- `CALC_FAN_SPEED`, the scaling applied on line 90; its definition is outside
  this file, so it is an arbitrary function of the build. -/
  CALC_FAN_SPEED : Nat → Nat
  /-- `FAN_KICKSTART_TIME` in milliseconds; `#if FAN_KICKSTART_TIME` is `≠ 0`. -/
  FAN_KICKSTART_TIME : Nat
  /-- `FAN_KICKSTART_POWER`. -/
  FAN_KICKSTART_POWER : Nat
  CONTROLLER_FAN_IGNORE_Z : Bool
  CONTROLLER_FAN_USE_Z_ONLY : Bool
  HAS_Z2_ENABLE : Bool
  HAS_Z3_ENABLE : Bool
  HAS_Z4_ENABLE : Bool
  HAS_X2_ENABLE : Bool
  HAS_Y2_ENABLE : Bool
  /-- `E_STEPPERS`, the number of extruder drivers in the `REPEAT`. -/
  E_STEPPERS : Nat
  /-- `bool(X_ENABLE_ON)` and its siblings: the pin level that means "enabled". -/
  X_ENABLE_ON : Bool
  Y_ENABLE_ON : Bool
  Z_ENABLE_ON : Bool
  E_ENABLE_ON : Bool
  HAS_HEATED_BED : Bool
  FAN_SOFT_PWM : Bool
  /-- `PWM_PIN(CONTROLLER_FAN_PIN)`. -/
  FAN_PIN_IS_PWM : Bool
  /-- `#ifdef CONTROLLER_FAN2_PIN`. -/
  HAS_FAN2_PIN : Bool
  /-- `PWM_PIN(CONTROLLER_FAN2_PIN)`. -/
  FAN2_PIN_IS_PWM : Bool

/-- The record `controllerFan_settings_t` (`active_speed`, `idle_speed` are
`uint8_t`, `duration` is `uint16_t`). -/
structure Settings where
  active_speed : Nat
  idle_speed : Nat
  duration : Nat
  auto_mode : Bool
deriving DecidableEq, Repr

/-- What one call of `update` reads from the rest of the firmware. -/
structure Inputs where
  X_ENABLE_READ : Bool
  Y_ENABLE_READ : Bool
  Z_ENABLE_READ : Bool
  Z2_ENABLE_READ : Bool
  Z3_ENABLE_READ : Bool
  Z4_ENABLE_READ : Bool
  X2_ENABLE_READ : Bool
  Y2_ENABLE_READ : Bool
  /-- `E0_ENABLE_READ()`, `E1_ENABLE_READ()`, ... by extruder index. -/
  E_ENABLE_READ : Nat → Bool
  /-- `thermalManager.temp_bed.soft_pwm_amount`. -/
  soft_pwm_amount : Nat
  /-- `thermalManager.fan_speed[0]`. -/
  fan_speed0 : Nat

/-- The static storage of the module: `ControllerFan::speed` and the three
function-local statics of `update`. -/
structure State where
  lastMotorOn : Nat
  nextMotorCheck : Nat
  speed : Nat
  fan_kick_end : Nat
deriving DecidableEq, Repr

/-- The two fan pins. -/
inductive Pin where
  | CONTROLLER_FAN_PIN
  | CONTROLLER_FAN2_PIN
deriving DecidableEq, Repr

/-- One write performed by `update`, in program order. -/
inductive Write where
  /-- `thermalManager.soft_pwm_controller_speed = speed`. -/
  | softPwm (speed : Nat)
  /-- `hal.set_pwm_duty(pin, duty)`. -/
  | pwmDuty (pin : Pin) (duty : Nat)
  /-- `WRITE(pin, level)`. -/
  | digital (pin : Pin) (level : Bool)
  /-- `fan_pwm_set_ratio(channel, value)`. -/
  | fanPwmSetRatio (channel : Nat) (value : Nat)
deriving DecidableEq, Repr

/-- The state at start-up: every static is zero-initialised. -/
def State.init : State :=
  { lastMotorOn := 0, nextMotorCheck := 0, speed := 0, fan_kick_end := 0 }

/-- Wrap to `millis_t` (32-bit unsigned). -/
def u32 (n : Nat) : Nat := n % 2 ^ 32

/-- Wrap to `uint8_t`. -/
def u8 (n : Nat) : Nat := n % 256

/-- Unsigned 32-bit subtraction `a - b`. -/
def sub32 (a b : Nat) : Nat := (u32 a + 2 ^ 32 - u32 b) % 2 ^ 32

/-- Modelled from the spec: the macro `PENDING(NOW,SOON)` is declared outside
this file.  The spec compares times on a millisecond clock by their difference
and the claims bound that difference by `2^31` on a clock that wraps at `2^32`,
which is the signed 32-bit test `(int32_t)(NOW - SOON) < 0`. -/
def PENDING (now soon : Nat) : Bool := decide (2 ^ 31 ≤ sub32 now soon)

/-- Modelled from the spec: the macro `ELAPSED(NOW,SOON)` is declared outside
this file; it is the negation of `PENDING`. -/
def ELAPSED (now soon : Nat) : Bool := !PENDING now soon

/-- Modelled from the spec: the macro `SEC_TO_MS` is declared outside this
file; the spec's `duration` is in seconds and compared in milliseconds, so it
is the product with 1000 as a `millis_t`. -/
def SEC_TO_MS (n : Nat) : Nat := u32 (n * 1000)

/-- Modelled from the spec: the constant `FAN_OFF_PWM` is declared outside this
file; the spec's kickstart shaper compares the target speed with 0. -/
def FAN_OFF_PWM : Nat := 0

/-- The macro `MOTOR_IS_ON(A,B)`: `A_ENABLE_READ() == bool(B_ENABLE_ON)`. -/
def MOTOR_IS_ON (read enableOn : Bool) : Bool := read == enableOn

/-- The expression initialising `motor_on` (lines 60-77). -/
def motor_on (cfg : Config) (inp : Inputs) : Bool :=
  ( !cfg.CONTROLLER_FAN_IGNORE_Z &&
    (    MOTOR_IS_ON inp.Z_ENABLE_READ cfg.Z_ENABLE_ON
      || (cfg.HAS_Z2_ENABLE && MOTOR_IS_ON inp.Z2_ENABLE_READ cfg.Z_ENABLE_ON)
      || (cfg.HAS_Z3_ENABLE && MOTOR_IS_ON inp.Z3_ENABLE_READ cfg.Z_ENABLE_ON)
      || (cfg.HAS_Z4_ENABLE && MOTOR_IS_ON inp.Z4_ENABLE_READ cfg.Z_ENABLE_ON)
    )
  ) || (
    !cfg.CONTROLLER_FAN_USE_Z_ONLY &&
    (    MOTOR_IS_ON inp.X_ENABLE_READ cfg.X_ENABLE_ON
      || MOTOR_IS_ON inp.Y_ENABLE_READ cfg.Y_ENABLE_ON
      || (cfg.HAS_X2_ENABLE && MOTOR_IS_ON inp.X2_ENABLE_READ cfg.X_ENABLE_ON)
      || (cfg.HAS_Y2_ENABLE && MOTOR_IS_ON inp.Y2_ENABLE_READ cfg.Y_ENABLE_ON)
      || (List.range cfg.E_STEPPERS).any
            (fun n => MOTOR_IS_ON (inp.E_ENABLE_READ n) cfg.E_ENABLE_ON)
    )
  )

/-- The second operand of the test on line 80:
`TERN0(HAS_HEATED_BED, thermalManager.temp_bed.soft_pwm_amount > 0)`. -/
def heater_on (cfg : Config) (inp : Inputs) : Bool :=
  cfg.HAS_HEATED_BED && decide (inp.soft_pwm_amount > 0)

/-- `ControllerFan::set_fan_speed` (lines 46-48); the parameter is a `uint8_t`. -/
def set_fan_speed (cfg : Config) (st : State) (s : Nat) : State :=
  { st with speed := if u8 s < cfg.CONTROLLERFAN_SPEED_MIN then 0 else u8 s }

/-- Lines 80-81: latch the time of this tick when a driver or the bed is on. -/
def latch (cfg : Config) (inp : Inputs) (ms : Nat) (st : State) : State :=
  if motor_on cfg inp || heater_on cfg inp then { st with lastMotorOn := ms } else st

/-- The argument of `set_fan_speed` on lines 87-88, as a function of the
(already latched) `lastMotorOn`. -/
def targetSpeed (settings : Settings) (ms lastMotorOn : Nat) : Nat :=
  if settings.auto_mode && lastMotorOn != 0
      && PENDING ms (u32 (lastMotorOn + SEC_TO_MS settings.duration))
  then settings.active_speed else settings.idle_speed

/-- Lines 79-89: the latch followed by the call of `set_fan_speed`. -/
def decideSpeed (cfg : Config) (settings : Settings) (inp : Inputs) (ms : Nat)
    (st : State) : State :=
  let st1 := latch cfg inp ms st
  set_fan_speed cfg st1 (targetSpeed settings ms st1.lastMotorOn)

/-- Line 90: `speed = CALC_FAN_SPEED(speed)`. -/
def calcSpeed (cfg : Config) (st : State) : State :=
  { st with speed := u8 (cfg.CALC_FAN_SPEED st.speed) }

/-- Lines 92-104, the block under `#if FAN_KICKSTART_TIME`. -/
def kickstart (cfg : Config) (ms : Nat) (st : State) : State :=
  if cfg.FAN_KICKSTART_TIME != 0 then
    if st.speed > FAN_OFF_PWM then
      if st.fan_kick_end == 0 then
        { st with fan_kick_end := u32 (ms + cfg.FAN_KICKSTART_TIME),
                  speed := u8 cfg.FAN_KICKSTART_POWER }
      else if PENDING ms st.fan_kick_end then
        { st with speed := u8 cfg.FAN_KICKSTART_POWER }
      else st
    else { st with fan_kick_end := 0 }
  else st

/-- The write to one fan pin (lines 109-112 and 115-118). -/
def writePin (isPwm : Bool) (pin : Pin) (speed : Nat) : Write :=
  if isPwm then Write.pwmDuty pin speed else Write.digital pin (decide (speed > 0))

/-- Lines 106-126: everything `update` writes, in program order. -/
def writeOutputs (cfg : Config) (inp : Inputs) (speed : Nat) : List Write :=
  (if cfg.FAN_SOFT_PWM then [Write.softPwm speed]
   else
     writePin cfg.FAN_PIN_IS_PWM Pin.CONTROLLER_FAN_PIN speed ::
       (if cfg.HAS_FAN2_PIN then
          [writePin cfg.FAN2_PIN_IS_PWM Pin.CONTROLLER_FAN2_PIN speed]
        else []))
  ++ [Write.fanPwmSetRatio 0 inp.fan_speed0, Write.fanPwmSetRatio 2 speed]

/-- The value of `speed` when line 94 tests it: the floored speed after
`CALC_FAN_SPEED`, before the kickstart override ("target speed"). -/
def target (cfg : Config) (settings : Settings) (inp : Inputs) (ms : Nat)
    (st : State) : Nat :=
  (calcSpeed cfg (decideSpeed cfg settings inp ms st)).speed

/-- The body of the `if` on line 54 (lines 55-126). -/
def evaluate (cfg : Config) (settings : Settings) (inp : Inputs) (ms : Nat)
    (st : State) : State × List Write :=
  let st1 := { st with nextMotorCheck := u32 (ms + 2500) }
  let st2 := decideSpeed cfg settings inp ms st1
  let st3 := calcSpeed cfg st2
  let st4 := kickstart cfg ms st3
  (st4, writeOutputs cfg inp st4.speed)

/-- `ControllerFan::update` (lines 50-128) at clock reading `ms = millis()`:
the new statics and the writes performed. -/
def update (cfg : Config) (settings : Settings) (inp : Inputs) (ms : Nat)
    (st : State) : State × List Write :=
  if ELAPSED ms st.nextMotorCheck then evaluate cfg settings inp ms st else (st, [])

/-! ## Sample builds and readings used for the concrete runs -/

/-- Modelled from the spec: the macro `CALC_FAN_SPEED` is declared outside this
file.  The spec has no scaling stage between the floor and the kickstart shaper
(a floored speed reaches the output unchanged and 0 is off), which is the
unscaled form `f ?: FAN_OFF_PWM`. -/
def passThrough (f : Nat) : Nat := if f != 0 then f else FAN_OFF_PWM

/-- A build with floor 50, no kickstart, no speed scaling, active-low enable
pins, a heated bed and one PWM fan pin. -/
def plainCfg : Config :=
  { CONTROLLERFAN_SPEED_MIN := 50, CALC_FAN_SPEED := passThrough,
    FAN_KICKSTART_TIME := 0, FAN_KICKSTART_POWER := 255,
    CONTROLLER_FAN_IGNORE_Z := false, CONTROLLER_FAN_USE_Z_ONLY := false,
    HAS_Z2_ENABLE := false, HAS_Z3_ENABLE := false, HAS_Z4_ENABLE := false,
    HAS_X2_ENABLE := false, HAS_Y2_ENABLE := false, E_STEPPERS := 1,
    X_ENABLE_ON := false, Y_ENABLE_ON := false, Z_ENABLE_ON := false,
    E_ENABLE_ON := false, HAS_HEATED_BED := true, FAN_SOFT_PWM := false,
    FAN_PIN_IS_PWM := true, HAS_FAN2_PIN := false, FAN2_PIN_IS_PWM := false }

/-- The build `plainCfg` with a kickstart of 500 ms at power 255. -/
def kickCfg : Config :=
  { plainCfg with FAN_KICKSTART_TIME := 500, FAN_KICKSTART_POWER := 255 }

/-- Readings with every driver disabled (enable pins are active-low in
`plainCfg`) and the bed heater off. -/
def allOff : Inputs :=
  { X_ENABLE_READ := true, Y_ENABLE_READ := true, Z_ENABLE_READ := true,
    Z2_ENABLE_READ := true, Z3_ENABLE_READ := true, Z4_ENABLE_READ := true,
    X2_ENABLE_READ := true, Y2_ENABLE_READ := true,
    E_ENABLE_READ := fun _ => true, soft_pwm_amount := 0, fan_speed0 := 0 }

/-- Readings with only the X driver enabled. -/
def xOn : Inputs := { allOff with X_ENABLE_READ := false }

/-- Automatic mode, 60 s persistence, idle 0, active 255. -/
def autoSettings : Settings :=
  { active_speed := 255, idle_speed := 0, duration := 60, auto_mode := true }

/-- Manual mode with idle speed 100. -/
def manualSettings : Settings :=
  { active_speed := 255, idle_speed := 100, duration := 60, auto_mode := false }

/-! ## Arithmetic of the wrapped clock -/

theorem sub32_lt (a b : Nat) : sub32 a b < 2 ^ 32 := by
  unfold sub32
  exact Nat.mod_lt _ (by norm_num)

theorem PENDING_iff (now soon : Nat) :
    PENDING now soon = true ↔ 2 ^ 31 ≤ sub32 now soon := by
  simp [PENDING]

theorem ELAPSED_iff (now soon : Nat) :
    ELAPSED now soon = true ↔ sub32 now soon < 2 ^ 31 := by
  simp [ELAPSED, PENDING]

/-- Inside the window: a deadline `d` ms after `t` is pending while fewer than
`d` ms have passed since `t`. -/
theorem PENDING_of_lt (ms t d : Nat)
    (hd : d ≤ 2 ^ 31) (h : sub32 ms t < d) : PENDING ms (u32 (t + d)) = true := by
  rw [PENDING_iff]
  simp only [sub32, u32] at *
  omega

/-- Past the window: the deadline has elapsed from `d` ms after `t` until the
signed difference wraps, `2^31` ms after the deadline. -/
theorem PENDING_of_ge (ms t d : Nat)
    (h1 : d ≤ sub32 ms t) (h2 : sub32 ms t < d + 2 ^ 31) :
    PENDING ms (u32 (t + d)) = false := by
  rw [Bool.eq_false_iff, Ne, PENDING_iff]
  simp only [sub32, u32] at *
  omega

/-- Beyond the range of the signed test the deadline reads as pending again. -/
theorem PENDING_of_wrapped (ms t d : Nat)
    (hd : d ≤ 2 ^ 31) (h : d + 2 ^ 31 ≤ sub32 ms t) :
    PENDING ms (u32 (t + d)) = true := by
  rw [PENDING_iff]
  simp only [sub32, u32] at *
  omega

theorem SEC_TO_MS_eq (n : Nat) (h : n < 2 ^ 16) : SEC_TO_MS n = n * 1000 := by
  unfold SEC_TO_MS u32
  omega

/-! ## Stage lemmas -/

theorem update_of_due (cfg : Config) (settings : Settings) (inp : Inputs) (ms : Nat)
    (st : State) (hdue : ELAPSED ms st.nextMotorCheck = true) :
    update cfg settings inp ms st = evaluate cfg settings inp ms st := by
  simp [update, hdue]

theorem update_of_not_due (cfg : Config) (settings : Settings) (inp : Inputs) (ms : Nat)
    (st : State) (hdue : ELAPSED ms st.nextMotorCheck = false) :
    update cfg settings inp ms st = (st, []) := by
  simp [update, hdue]

theorem latch_lastMotorOn (cfg : Config) (inp : Inputs) (ms : Nat) (st : State) :
    (latch cfg inp ms st).lastMotorOn =
      if motor_on cfg inp || heater_on cfg inp then ms else st.lastMotorOn := by
  unfold latch
  split <;> rfl

theorem latch_fan_kick_end (cfg : Config) (inp : Inputs) (ms : Nat) (st : State) :
    (latch cfg inp ms st).fan_kick_end = st.fan_kick_end := by
  unfold latch
  split <;> rfl

theorem latch_nextMotorCheck (cfg : Config) (inp : Inputs) (ms : Nat) (st : State) :
    (latch cfg inp ms st).nextMotorCheck = st.nextMotorCheck := by
  unfold latch
  split <;> rfl

theorem kickstart_lastMotorOn (cfg : Config) (ms : Nat) (st : State) :
    (kickstart cfg ms st).lastMotorOn = st.lastMotorOn := by
  unfold kickstart
  repeat' split
  all_goals rfl

theorem kickstart_nextMotorCheck (cfg : Config) (ms : Nat) (st : State) :
    (kickstart cfg ms st).nextMotorCheck = st.nextMotorCheck := by
  unfold kickstart
  repeat' split
  all_goals rfl

/-- The statics other than `speed` and `fan_kick_end` after an evaluated tick,
and the decomposition of the tick into its stages. -/
theorem evaluate_fst (cfg : Config) (settings : Settings) (inp : Inputs) (ms : Nat)
    (st : State) :
    (evaluate cfg settings inp ms st).1 =
      kickstart cfg ms (calcSpeed cfg
        (decideSpeed cfg settings inp ms { st with nextMotorCheck := u32 (ms + 2500) })) :=
  rfl

theorem target_nextMotorCheck (cfg : Config) (settings : Settings) (inp : Inputs)
    (ms : Nat) (st : State) (n : Nat) :
    target cfg settings inp ms { st with nextMotorCheck := n } =
      target cfg settings inp ms st := by
  simp only [target, calcSpeed, decideSpeed, set_fan_speed, latch_lastMotorOn]

/-! ## C1: the speed handed to `set_fan_speed` -/

/-- C1, as stated, fails: `lastMotorOn` was latched at 1000 ms and nothing has
been on since; at the due tick at 2 147 546 000 ms `auto_mode` is true and
`now - lastMotorOn = 2 147 545 000` is not below `duration * 1000 = 60000`, so
the claim gives `idle_speed` (0); the code hands `active_speed` (255) to
`set_fan_speed` and leaves speed 255, because the signed 32-bit test on line 87
reads the deadline `lastMotorOn + 60000` as pending again once it lies more than
`2^31` ms in the past. -/
theorem C1_counterexample :
    ELAPSED 2147546000 (State.mk 1000 2147546000 0 0).nextMotorCheck = true
    ∧ autoSettings.auto_mode = true
    ∧ (latch plainCfg allOff 2147546000 (State.mk 1000 2147546000 0 0)).lastMotorOn = 1000
    ∧ ¬ (2147546000 - 1000 < autoSettings.duration * 1000)
    ∧ targetSpeed autoSettings 2147546000
        (latch plainCfg allOff 2147546000 (State.mk 1000 2147546000 0 0)).lastMotorOn
        = autoSettings.active_speed
    ∧ targetSpeed autoSettings 2147546000
        (latch plainCfg allOff 2147546000 (State.mk 1000 2147546000 0 0)).lastMotorOn
        ≠ autoSettings.idle_speed
    ∧ (update plainCfg autoSettings allOff 2147546000 (State.mk 1000 2147546000 0 0)).1.speed
        = 255 := by
  decide

/-- C1, amended: an evaluated tick of `update` hands `targetSpeed` at the
latched `lastMotorOn` (written `L`) to `set_fan_speed`.  It is `active_speed`
when `auto_mode` is true, `L` is set (non-zero) and the wrapped difference
`now - L` is below `duration * 1000`.  It is `idle_speed` when `auto_mode` is
false, when `L` is set and `duration * 1000 ≤ now - L < duration * 1000 + 2^31`,
and when `lastMotorOn` was never set (0 before the tick, neither a driver nor
the heater on). -/
theorem C1_target_speed (cfg : Config) (settings : Settings) (inp : Inputs)
    (ms : Nat) (st : State) (hdur : settings.duration < 2 ^ 16)
    (hdue : ELAPSED ms st.nextMotorCheck = true) :
    (update cfg settings inp ms st).1 =
        kickstart cfg ms (calcSpeed cfg (set_fan_speed cfg
          (latch cfg inp ms { st with nextMotorCheck := u32 (ms + 2500) })
          (targetSpeed settings ms (latch cfg inp ms st).lastMotorOn)))
    ∧ (settings.auto_mode = true → (latch cfg inp ms st).lastMotorOn ≠ 0 →
        sub32 ms (latch cfg inp ms st).lastMotorOn < settings.duration * 1000 →
        targetSpeed settings ms (latch cfg inp ms st).lastMotorOn = settings.active_speed)
    ∧ (settings.auto_mode = false →
        targetSpeed settings ms (latch cfg inp ms st).lastMotorOn = settings.idle_speed)
    ∧ ((latch cfg inp ms st).lastMotorOn ≠ 0 →
        settings.duration * 1000 ≤ sub32 ms (latch cfg inp ms st).lastMotorOn →
        sub32 ms (latch cfg inp ms st).lastMotorOn < settings.duration * 1000 + 2 ^ 31 →
        targetSpeed settings ms (latch cfg inp ms st).lastMotorOn = settings.idle_speed)
    ∧ (st.lastMotorOn = 0 → (motor_on cfg inp || heater_on cfg inp) = false →
        targetSpeed settings ms (latch cfg inp ms st).lastMotorOn = settings.idle_speed) := by
  have hD : settings.duration * 1000 ≤ 2 ^ 31 := by omega
  refine ⟨?_, ?_, ?_, ?_, ?_⟩
  · rw [update_of_due _ _ _ _ _ hdue, evaluate_fst]
    simp only [decideSpeed, latch_lastMotorOn]
  · intro hauto hL hlt
    have hp := PENDING_of_lt ms _ _ hD hlt
    rw [← SEC_TO_MS_eq _ hdur] at hp
    simp [targetSpeed, hauto, hL, hp]
  · intro hauto
    simp [targetSpeed, hauto]
  · intro _ hge hlt
    have hp := PENDING_of_ge ms _ _ hge hlt
    rw [← SEC_TO_MS_eq _ hdur] at hp
    simp [targetSpeed, hp]
  · intro h0 hoff
    have hL : (latch cfg inp ms st).lastMotorOn = 0 := by
      rw [latch_lastMotorOn, hoff]
      simpa using h0
    simp [targetSpeed, hL]

/-- Witness for C1 (amended), 60 s persistence and a latch at 10 s: the due tick
at 15 s selects `active_speed`, the due tick at 70 s selects `idle_speed`. -/
theorem C1_target_speed_witness :
    targetSpeed autoSettings 15000
        (latch plainCfg allOff 15000 (State.mk 10000 15000 255 0)).lastMotorOn = 255
    ∧ targetSpeed autoSettings 70000
        (latch plainCfg allOff 70000 (State.mk 10000 70000 255 0)).lastMotorOn = 0 :=
  ⟨(C1_target_speed plainCfg autoSettings allOff 15000 (State.mk 10000 15000 255 0)
      (by decide) (by decide)).2.1 (by decide) (by decide) (by decide),
   (C1_target_speed plainCfg autoSettings allOff 70000 (State.mk 10000 70000 255 0)
      (by decide) (by decide)).2.2.2.1 (by decide) (by decide) (by decide)⟩

/-! ## C2: manual mode -/

/-- C2: on an evaluated tick with `auto_mode` false the statics after the tick
are the kickstart and scaling stages applied to the decision stage, and the
speed the decision stage leaves (the speed after the floor) is 0 when
`idle_speed` is below `CONTROLLERFAN_SPEED_MIN` and `idle_speed` otherwise,
whatever the readings and the stored `lastMotorOn`. -/
theorem C2_manual_mode_floor (cfg : Config) (settings : Settings) (inp : Inputs)
    (ms : Nat) (st : State) (hdue : ELAPSED ms st.nextMotorCheck = true)
    (hauto : settings.auto_mode = false) (hidle : settings.idle_speed < 256) :
    (update cfg settings inp ms st).1 =
        kickstart cfg ms (calcSpeed cfg
          (decideSpeed cfg settings inp ms { st with nextMotorCheck := u32 (ms + 2500) }))
    ∧ (decideSpeed cfg settings inp ms { st with nextMotorCheck := u32 (ms + 2500) }).speed =
        if settings.idle_speed < cfg.CONTROLLERFAN_SPEED_MIN then 0
        else settings.idle_speed := by
  refine ⟨by rw [update_of_due _ _ _ _ _ hdue, evaluate_fst], ?_⟩
  have h8 : u8 settings.idle_speed = settings.idle_speed := Nat.mod_eq_of_lt hidle
  simp [decideSpeed, set_fan_speed, targetSpeed, hauto, h8]

/-- Witness for C2: manual mode with idle speed 100 and X enabled at 7 s. -/
theorem C2_manual_mode_floor_witness :
    (decideSpeed plainCfg manualSettings xOn 7000
        { State.init with nextMotorCheck := u32 (7000 + 2500) }).speed = 100 :=
  (C2_manual_mode_floor plainCfg manualSettings xOn 7000 State.init
    (by decide) (by decide) (by decide)).2

/-! ## C3: the floor -/

/-- C3: for every 8-bit `s`, `set_fan_speed(s)` stores 0 when
`s < CONTROLLERFAN_SPEED_MIN` and `s` itself when `s ≥ CONTROLLERFAN_SPEED_MIN`,
and touches no other static. -/
theorem C3_set_fan_speed_floor (cfg : Config) (st : State) (s : Nat) (hs : s < 256) :
    (s < cfg.CONTROLLERFAN_SPEED_MIN → (set_fan_speed cfg st s).speed = 0)
    ∧ (cfg.CONTROLLERFAN_SPEED_MIN ≤ s → (set_fan_speed cfg st s).speed = s)
    ∧ (set_fan_speed cfg st s).lastMotorOn = st.lastMotorOn
    ∧ (set_fan_speed cfg st s).nextMotorCheck = st.nextMotorCheck
    ∧ (set_fan_speed cfg st s).fan_kick_end = st.fan_kick_end := by
  have h8 : u8 s = s := Nat.mod_eq_of_lt hs
  refine ⟨?_, ?_, rfl, rfl, rfl⟩
  · intro h
    simp [set_fan_speed, h8, h]
  · intro h
    simp [set_fan_speed, h8, Nat.not_lt.mpr h]

/-- Witness for C3: with floor 50, speed 49 is stored as 0. -/
theorem C3_set_fan_speed_floor_witness :
    (set_fan_speed plainCfg State.init 49).speed = 0 :=
  (C3_set_fan_speed_floor plainCfg State.init 49 (by decide)).1 (by decide)

/-! ## C4: the latch -/

/-- C4: after an evaluated tick at clock reading `ms`, `lastMotorOn` is `ms`
when a monitored driver or the bed heater is on, and is unchanged when both
are off. -/
theorem C4_lastMotorOn_latch (cfg : Config) (settings : Settings) (inp : Inputs)
    (ms : Nat) (st : State) (hdue : ELAPSED ms st.nextMotorCheck = true) :
    ((motor_on cfg inp = true ∨ heater_on cfg inp = true) →
        (update cfg settings inp ms st).1.lastMotorOn = ms)
    ∧ ((motor_on cfg inp = false ∧ heater_on cfg inp = false) →
        (update cfg settings inp ms st).1.lastMotorOn = st.lastMotorOn) := by
  have key : (update cfg settings inp ms st).1.lastMotorOn =
      if motor_on cfg inp || heater_on cfg inp then ms else st.lastMotorOn := by
    rw [update_of_due _ _ _ _ _ hdue, evaluate_fst, kickstart_lastMotorOn]
    simp only [calcSpeed, decideSpeed, set_fan_speed, latch_lastMotorOn]
  constructor
  · intro h
    rw [key]
    rcases h with h | h <;> simp [h]
  · rintro ⟨h1, h2⟩
    rw [key]
    simp [h1, h2]

/-- Witness for C4: X enabled on the due tick at 7 s latches 7000. -/
theorem C4_lastMotorOn_latch_witness :
    (update plainCfg autoSettings xOn 7000 State.init).1.lastMotorOn = 7000 :=
  (C4_lastMotorOn_latch plainCfg autoSettings xOn 7000 State.init (by decide)).1
    (Or.inl (by decide))

/-! ## C5-C7: the kickstart shaper on one evaluated tick -/

/-- The evaluated tick in terms of the target speed: the kickstart block runs on
a state whose `speed` is `target` and whose `fan_kick_end` is the stored one. -/
theorem evaluate_kick (cfg : Config) (settings : Settings) (inp : Inputs) (ms : Nat)
    (st : State) :
    (calcSpeed cfg (decideSpeed cfg settings inp ms
        { st with nextMotorCheck := u32 (ms + 2500) })).speed = target cfg settings inp ms st
    ∧ (calcSpeed cfg (decideSpeed cfg settings inp ms
        { st with nextMotorCheck := u32 (ms + 2500) })).fan_kick_end = st.fan_kick_end := by
  constructor
  · exact target_nextMotorCheck cfg settings inp ms st _
  · simp only [calcSpeed, decideSpeed, set_fan_speed, latch_fan_kick_end]

/-- An evaluated tick writes the outputs for the speed it leaves in `speed`. -/
theorem evaluate_snd (cfg : Config) (settings : Settings) (inp : Inputs) (ms : Nat)
    (st : State) :
    (evaluate cfg settings inp ms st).2 =
      writeOutputs cfg inp (evaluate cfg settings inp ms st).1.speed :=
  rfl

/-- The kickstart block opens a window when the speed is non-zero and none is open. -/
theorem kickstart_open (cfg : Config) (ms : Nat) (st : State)
    (hk : cfg.FAN_KICKSTART_TIME ≠ 0) (hpos : 0 < st.speed) (h0 : st.fan_kick_end = 0) :
    (kickstart cfg ms st).fan_kick_end = u32 (ms + cfg.FAN_KICKSTART_TIME)
    ∧ (kickstart cfg ms st).speed = u8 cfg.FAN_KICKSTART_POWER := by
  simp [kickstart, hk, FAN_OFF_PWM, hpos, h0]

/-- The kickstart block keeps overriding while the open window is pending. -/
theorem kickstart_pending (cfg : Config) (ms : Nat) (st : State)
    (hk : cfg.FAN_KICKSTART_TIME ≠ 0) (hpos : 0 < st.speed) (h0 : st.fan_kick_end ≠ 0)
    (hp : PENDING ms st.fan_kick_end = true) :
    (kickstart cfg ms st).fan_kick_end = st.fan_kick_end
    ∧ (kickstart cfg ms st).speed = u8 cfg.FAN_KICKSTART_POWER := by
  simp [kickstart, hk, FAN_OFF_PWM, hpos, h0, hp]

/-- The kickstart block leaves the state alone once the open window has elapsed. -/
theorem kickstart_expired (cfg : Config) (ms : Nat) (st : State)
    (hpos : 0 < st.speed) (h0 : st.fan_kick_end ≠ 0)
    (hp : PENDING ms st.fan_kick_end = false) :
    kickstart cfg ms st = st := by
  simp [kickstart, FAN_OFF_PWM, hpos, h0, hp]

/-- The kickstart block clears the deadline when the speed is zero. -/
theorem kickstart_zero (cfg : Config) (ms : Nat) (st : State)
    (hk : cfg.FAN_KICKSTART_TIME ≠ 0) (hz : st.speed = 0) :
    (kickstart cfg ms st).fan_kick_end = 0 ∧ (kickstart cfg ms st).speed = 0 := by
  simp [kickstart, hk, FAN_OFF_PWM, hz]

/-- C5: with kickstart configured, an evaluated tick whose target speed is
non-zero and which finds no window open (`fan_kick_end = 0`) sets
`fan_kick_end` to `ms + FAN_KICKSTART_TIME` (as a `millis_t`), leaves
`FAN_KICKSTART_POWER` in `speed` and writes the outputs for that power,
whatever the target speed was. -/
theorem C5_kickstart_opens (cfg : Config) (settings : Settings) (inp : Inputs)
    (ms : Nat) (st : State) (hk : cfg.FAN_KICKSTART_TIME ≠ 0)
    (hpow : cfg.FAN_KICKSTART_POWER < 256)
    (hdue : ELAPSED ms st.nextMotorCheck = true)
    (htarget : 0 < target cfg settings inp ms st) (hclosed : st.fan_kick_end = 0) :
    (update cfg settings inp ms st).1.fan_kick_end = u32 (ms + cfg.FAN_KICKSTART_TIME)
    ∧ (update cfg settings inp ms st).1.speed = cfg.FAN_KICKSTART_POWER
    ∧ (update cfg settings inp ms st).2 = writeOutputs cfg inp cfg.FAN_KICKSTART_POWER := by
  have h8 : u8 cfg.FAN_KICKSTART_POWER = cfg.FAN_KICKSTART_POWER := Nat.mod_eq_of_lt hpow
  obtain ⟨hs, hf⟩ := evaluate_kick cfg settings inp ms st
  have hopen := kickstart_open cfg ms _ hk (hs ▸ htarget) (hf.trans hclosed)
  rw [← evaluate_fst, h8] at hopen
  rw [update_of_due _ _ _ _ _ hdue, evaluate_snd, hopen.2]
  exact ⟨hopen.1, rfl, rfl⟩

/-- Witness for C5: first tick of a build with a 500 ms kickstart, target 100. -/
theorem C5_kickstart_opens_witness :
    (update kickCfg manualSettings allOff 0 State.init).1.fan_kick_end = u32 (0 + 500)
    ∧ (update kickCfg manualSettings allOff 0 State.init).1.speed = 255
    ∧ (update kickCfg manualSettings allOff 0 State.init).2
        = writeOutputs kickCfg allOff 255 :=
  C5_kickstart_opens kickCfg manualSettings allOff 0 State.init
    (by decide) (by decide) (by decide) (by decide) (by decide)

/-- C6, as stated, fails: with a 500 ms kickstart opened at 0 (deadline 500)
and target speed 100, the due tick at 2500 finds the window open and expired
and outputs 100, but `fan_kick_end` is still 500 afterwards: it is not cleared. -/
theorem C6_counterexample :
    kickCfg.FAN_KICKSTART_TIME ≠ 0
    ∧ ELAPSED 2500 (State.mk 0 2500 255 500).nextMotorCheck = true
    ∧ 0 < target kickCfg manualSettings allOff 2500 (State.mk 0 2500 255 500)
    ∧ (State.mk 0 2500 255 500).fan_kick_end ≠ 0
    ∧ ELAPSED 2500 (State.mk 0 2500 255 500).fan_kick_end = true
    ∧ (update kickCfg manualSettings allOff 2500 (State.mk 0 2500 255 500)).1.speed = 100
    ∧ (update kickCfg manualSettings allOff 2500 (State.mk 0 2500 255 500)).1.fan_kick_end
        ≠ 0 := by
  decide

/-- C6, amended: with kickstart configured, an evaluated tick whose target speed
is non-zero and which finds an open window expired (`ELAPSED(ms, fan_kick_end)`)
leaves `fan_kick_end` as it was (still set) and, on that same tick, leaves the
un-overridden target speed in `speed` and writes the outputs for it. -/
theorem C6_kickstart_expired (cfg : Config) (settings : Settings) (inp : Inputs)
    (ms : Nat) (st : State) (hk : cfg.FAN_KICKSTART_TIME ≠ 0)
    (hdue : ELAPSED ms st.nextMotorCheck = true)
    (htarget : 0 < target cfg settings inp ms st) (hopen : st.fan_kick_end ≠ 0)
    (hexp : ELAPSED ms st.fan_kick_end = true) :
    (update cfg settings inp ms st).1.fan_kick_end = st.fan_kick_end
    ∧ (update cfg settings inp ms st).1.fan_kick_end ≠ 0
    ∧ (update cfg settings inp ms st).1.speed = target cfg settings inp ms st
    ∧ (update cfg settings inp ms st).2 =
        writeOutputs cfg inp (target cfg settings inp ms st) := by
  have _ := hk
  obtain ⟨hs, hf⟩ := evaluate_kick cfg settings inp ms st
  have hnp : PENDING ms st.fan_kick_end = false := by
    simpa [ELAPSED] using hexp
  have hkeep := kickstart_expired cfg ms _ (hs ▸ htarget) (by rw [hf]; exact hopen)
    (by rw [hf]; exact hnp)
  rw [← evaluate_fst] at hkeep
  rw [update_of_due _ _ _ _ _ hdue, evaluate_snd, hkeep, hs, hf]
  exact ⟨rfl, hopen, rfl, rfl⟩

/-- Witness for C6 (amended): the tick of `C6_counterexample`. -/
theorem C6_kickstart_expired_witness :
    (update kickCfg manualSettings allOff 2500 (State.mk 0 2500 255 500)).1.fan_kick_end
        = 500
    ∧ (update kickCfg manualSettings allOff 2500 (State.mk 0 2500 255 500)).1.speed = 100 :=
  have h := C6_kickstart_expired kickCfg manualSettings allOff 2500 (State.mk 0 2500 255 500)
    (by decide) (by decide) (by decide) (by decide) (by decide)
  ⟨h.1, h.2.2.1⟩

/-- C7: with kickstart configured, an evaluated tick whose target speed is 0
clears `fan_kick_end` (and leaves speed 0) whatever the stored deadline was;
calls that are not due leave that state alone; and the next evaluated tick with
a non-zero target sets `fan_kick_end` to its own `ms + FAN_KICKSTART_TIME` and
leaves `FAN_KICKSTART_POWER` in `speed` and on the outputs. -/
theorem C7_kickstart_reset (cfg : Config) (settings : Settings) (inp : Inputs)
    (ms : Nat) (st : State) (hk : cfg.FAN_KICKSTART_TIME ≠ 0)
    (hpow : cfg.FAN_KICKSTART_POWER < 256)
    (hdue : ELAPSED ms st.nextMotorCheck = true)
    (hzero : target cfg settings inp ms st = 0) :
    (update cfg settings inp ms st).1.fan_kick_end = 0
    ∧ (update cfg settings inp ms st).1.speed = 0
    ∧ (∀ (settings1 : Settings) (inp1 : Inputs) (ms1 : Nat),
        ELAPSED ms1 (update cfg settings inp ms st).1.nextMotorCheck = false →
        (update cfg settings1 inp1 ms1 (update cfg settings inp ms st).1).1
          = (update cfg settings inp ms st).1)
    ∧ (∀ (settings2 : Settings) (inp2 : Inputs) (ms2 : Nat),
        ELAPSED ms2 (update cfg settings inp ms st).1.nextMotorCheck = true →
        0 < target cfg settings2 inp2 ms2 (update cfg settings inp ms st).1 →
        (update cfg settings2 inp2 ms2 (update cfg settings inp ms st).1).1.fan_kick_end
            = u32 (ms2 + cfg.FAN_KICKSTART_TIME)
        ∧ (update cfg settings2 inp2 ms2 (update cfg settings inp ms st).1).1.speed
            = cfg.FAN_KICKSTART_POWER
        ∧ (update cfg settings2 inp2 ms2 (update cfg settings inp ms st).1).2
            = writeOutputs cfg inp2 cfg.FAN_KICKSTART_POWER) := by
  obtain ⟨hs, _⟩ := evaluate_kick cfg settings inp ms st
  have hclr := kickstart_zero cfg ms _ hk (hs.trans hzero)
  rw [← evaluate_fst, ← update_of_due _ _ _ _ _ hdue] at hclr
  refine ⟨hclr.1, hclr.2, ?_, ?_⟩
  · intro settings1 inp1 ms1 hnd
    rw [update_of_not_due _ _ _ _ _ hnd]
  · intro settings2 inp2 ms2 hdue2 hpos
    have h8 : u8 cfg.FAN_KICKSTART_POWER = cfg.FAN_KICKSTART_POWER :=
      Nat.mod_eq_of_lt hpow
    obtain ⟨hs2, hf2⟩ := evaluate_kick cfg settings2 inp2 ms2 (update cfg settings inp ms st).1
    have hopen := kickstart_open cfg ms2 _ hk (hs2 ▸ hpos) (hf2.trans hclr.1)
    rw [← evaluate_fst, h8] at hopen
    rw [update_of_due _ _ _ _ _ hdue2, evaluate_snd, hopen.2]
    exact ⟨hopen.1, rfl, rfl⟩

/-- Idle speed 0 in manual mode: the target speed is 0. -/
def offSettings : Settings :=
  { active_speed := 255, idle_speed := 0, duration := 60, auto_mode := false }

/-- Witness for C7: a pending window (deadline 3000) is cleared by the tick at
2500 with target 0, and the tick at 5000 with target 100 opens one to 5500. -/
theorem C7_kickstart_reset_witness :
    (update kickCfg offSettings allOff 2500 (State.mk 0 2500 255 3000)).1.fan_kick_end = 0
    ∧ (update kickCfg manualSettings allOff 5000
        (update kickCfg offSettings allOff 2500 (State.mk 0 2500 255 3000)).1).1.fan_kick_end
        = u32 (5000 + 500)
    ∧ (update kickCfg manualSettings allOff 5000
        (update kickCfg offSettings allOff 2500 (State.mk 0 2500 255 3000)).1).1.speed
        = 255 :=
  have h := C7_kickstart_reset kickCfg offSettings allOff 2500 (State.mk 0 2500 255 3000)
    (by decide) (by decide) (by decide) (by decide)
  have h2 := h.2.2.2 manualSettings allOff 5000 (by decide) (by decide)
  ⟨h.1, h2.1, h2.2.1⟩

/-! ## Polling `update` once per millisecond -/

/-- The statics after `update` has been called at the `n` successive
milliseconds `t0, t0 + 1, ..., t0 + n - 1` (the clock reads `u32 t`), with the
settings and readings of each millisecond. -/
def poll (cfg : Config) (settings : Nat → Settings) (inp : Nat → Inputs) :
    Nat → State → Nat → State
  | _, st, 0 => st
  | t0, st, n + 1 =>
    poll cfg settings inp (t0 + 1) (update cfg (settings t0) (inp t0) (u32 t0) st).1 n

/-- The target speed that the call `i` milliseconds after `t0` computes (or
would compute, were it due). -/
def pollTarget (cfg : Config) (settings : Nat → Settings) (inp : Nat → Inputs)
    (t0 : Nat) (st : State) (i : Nat) : Nat :=
  target cfg (settings (t0 + i)) (inp (t0 + i)) (u32 (t0 + i)) (poll cfg settings inp t0 st i)

theorem evaluate_nextMotorCheck (cfg : Config) (settings : Settings) (inp : Inputs)
    (ms : Nat) (st : State) :
    (evaluate cfg settings inp ms st).1.nextMotorCheck = u32 (ms + 2500) := by
  rw [evaluate_fst, kickstart_nextMotorCheck]
  simp only [calcSpeed, decideSpeed, set_fan_speed, latch_nextMotorCheck]

/-- A second call within the same millisecond is never due. -/
theorem update_same_ms (cfg : Config) (settings settings1 : Settings) (inp inp1 : Inputs)
    (ms : Nat) (st : State) :
    (update cfg settings1 inp1 ms (update cfg settings inp ms st).1).1
      = (update cfg settings inp ms st).1 := by
  by_cases hdue : ELAPSED ms st.nextMotorCheck = true
  · have hnd : ELAPSED ms (update cfg settings inp ms st).1.nextMotorCheck = false := by
      rw [update_of_due _ _ _ _ _ hdue, evaluate_nextMotorCheck, ← Bool.not_eq_true,
        ELAPSED_iff]
      simp only [sub32, u32]
      omega
    rw [update_of_not_due _ _ _ _ _ hnd]
  · have hnd : ELAPSED ms st.nextMotorCheck = false := by simpa using hdue
    rw [update_of_not_due _ _ _ _ _ hnd, update_of_not_due _ _ _ _ _ hnd]

section Polling

variable (cfg : Config) (settings : Nat → Settings) (inp : Nat → Inputs) (t0 : Nat)
  (st : State)

/-- The last call of a run: the state after `n + 1` calls is `update` at
`t0 + n` applied to the state after `n` calls. -/
theorem poll_succ (n : Nat) :
    poll cfg settings inp t0 st (n + 1)
      = (update cfg (settings (t0 + n)) (inp (t0 + n)) (u32 (t0 + n))
          (poll cfg settings inp t0 st n)).1 := by
  induction n generalizing t0 st with
  | zero => rfl
  | succ n ih =>
    have h := ih (t0 + 1) (update cfg (settings t0) (inp t0) (u32 t0) st).1
    have e : t0 + 1 + n = t0 + (n + 1) := by omega
    rw [e] at h
    exact h

theorem poll_one (hdue : ELAPSED (u32 t0) st.nextMotorCheck = true) :
    poll cfg settings inp t0 st 1
      = (evaluate cfg (settings t0) (inp t0) (u32 t0) st).1 := by
  show (update cfg (settings t0) (inp t0) (u32 t0) st).1 = _
  rw [update_of_due _ _ _ _ _ hdue]

/-- When the first call is due, the evaluations are exactly the calls at
`t0 + 2500 * k`: after the call at `t0 + n` the next check is due 2500 ms after
the last multiple of 2500. -/
theorem poll_nextMotorCheck (hdue : ELAPSED (u32 t0) st.nextMotorCheck = true) (n : Nat) :
    (poll cfg settings inp t0 st (n + 1)).nextMotorCheck
      = u32 (t0 + 2500 * (n / 2500) + 2500) := by
  induction n with
  | zero =>
    rw [poll_one cfg settings inp t0 st hdue, evaluate_nextMotorCheck]
    simp only [u32]
    omega
  | succ n ih =>
    rw [poll_succ cfg settings inp t0 st (n + 1)]
    by_cases hm : (n + 1) % 2500 = 0
    · have hd : ELAPSED (u32 (t0 + (n + 1)))
          (poll cfg settings inp t0 st (n + 1)).nextMotorCheck = true := by
        rw [ih, ELAPSED_iff]
        simp only [sub32, u32]
        omega
      rw [update_of_due _ _ _ _ _ hd, evaluate_nextMotorCheck]
      simp only [u32]
      omega
    · have hd : ELAPSED (u32 (t0 + (n + 1)))
          (poll cfg settings inp t0 st (n + 1)).nextMotorCheck = false := by
        rw [← Bool.not_eq_true, ELAPSED_iff, ih]
        simp only [sub32, u32]
        omega
      rw [update_of_not_due _ _ _ _ _ hd, ih]
      simp only [u32]
      omega

/-- The call at a multiple of 2500 ms after `t0` is an evaluation. -/
theorem poll_due (hdue : ELAPSED (u32 t0) st.nextMotorCheck = true) (n : Nat)
    (hm : (n + 1) % 2500 = 0) :
    ELAPSED (u32 (t0 + (n + 1))) (poll cfg settings inp t0 st (n + 1)).nextMotorCheck = true
    ∧ poll cfg settings inp t0 st (n + 2)
      = (evaluate cfg (settings (t0 + (n + 1))) (inp (t0 + (n + 1))) (u32 (t0 + (n + 1)))
          (poll cfg settings inp t0 st (n + 1))).1 := by
  have hd : ELAPSED (u32 (t0 + (n + 1)))
      (poll cfg settings inp t0 st (n + 1)).nextMotorCheck = true := by
    rw [poll_nextMotorCheck cfg settings inp t0 st hdue, ELAPSED_iff]
    simp only [sub32, u32]
    omega
  refine ⟨hd, ?_⟩
  rw [poll_succ cfg settings inp t0 st (n + 1)]
  rw [update_of_due _ _ _ _ _ hd]

/-- Every other call leaves the statics alone. -/
theorem poll_not_due (hdue : ELAPSED (u32 t0) st.nextMotorCheck = true) (n : Nat)
    (hm : (n + 1) % 2500 ≠ 0) :
    poll cfg settings inp t0 st (n + 2) = poll cfg settings inp t0 st (n + 1) := by
  have hd : ELAPSED (u32 (t0 + (n + 1)))
      (poll cfg settings inp t0 st (n + 1)).nextMotorCheck = false := by
    rw [← Bool.not_eq_true, ELAPSED_iff, poll_nextMotorCheck cfg settings inp t0 st hdue]
    simp only [sub32, u32]
    omega
  rw [poll_succ cfg settings inp t0 st (n + 1)]
  rw [update_of_not_due _ _ _ _ _ hd]

/-- The kickstart block on a non-zero speed with no window open or a pending one. -/
theorem kickstart_override (ms : Nat) (s : State) (hk : cfg.FAN_KICKSTART_TIME ≠ 0)
    (hpos : 0 < s.speed) (h : s.fan_kick_end = 0 ∨ PENDING ms s.fan_kick_end = true) :
    (kickstart cfg ms s).speed = u8 cfg.FAN_KICKSTART_POWER
    ∧ (kickstart cfg ms s).fan_kick_end
        = if s.fan_kick_end = 0 then u32 (ms + cfg.FAN_KICKSTART_TIME) else s.fan_kick_end := by
  by_cases h0 : s.fan_kick_end = 0
  · have := kickstart_open cfg ms s hk hpos h0
    simp [h0, this]
  · have hp : PENDING ms s.fan_kick_end = true := h.resolve_left h0
    have := kickstart_pending cfg ms s hk hpos h0 hp
    simp [h0, this]

/-- Lower bound of the kickstart: while the last evaluation is less than
`FAN_KICKSTART_TIME` after `t0`, the speed is the kickstart power and the
deadline is that of a window opened at or after `t0`. -/
theorem poll_kick_lower (hk : cfg.FAN_KICKSTART_TIME ≠ 0)
    (hK : cfg.FAN_KICKSTART_TIME ≤ 2 ^ 31)
    (hdue : ELAPSED (u32 t0) st.nextMotorCheck = true) (hclosed : st.fan_kick_end = 0)
    (hpos : ∀ i, ELAPSED (u32 (t0 + i)) (poll cfg settings inp t0 st i).nextMotorCheck = true →
      0 < pollTarget cfg settings inp t0 st i)
    (n : Nat) (hn : n < cfg.FAN_KICKSTART_TIME) :
    (poll cfg settings inp t0 st (n + 1)).speed = u8 cfg.FAN_KICKSTART_POWER
    ∧ ∃ e0, e0 ≤ n ∧ (poll cfg settings inp t0 st (n + 1)).fan_kick_end
        = u32 (t0 + e0 + cfg.FAN_KICKSTART_TIME) := by
  induction n with
  | zero =>
    rw [poll_one cfg settings inp t0 st hdue, evaluate_fst]
    obtain ⟨hs, hf⟩ := evaluate_kick cfg (settings t0) (inp t0) (u32 t0) st
    have h := kickstart_open cfg (u32 t0) _ hk (hs ▸ hpos 0 hdue) (hf.trans hclosed)
    refine ⟨h.2, 0, le_refl _, ?_⟩
    rw [h.1]
    simp only [u32]
    omega
  | succ n ih =>
    obtain ⟨ihs, e0, he0, ihf⟩ := ih (by omega)
    by_cases hm : (n + 1) % 2500 = 0
    · obtain ⟨hd, hstep⟩ := poll_due cfg settings inp t0 st hdue n hm
      rw [hstep, evaluate_fst]
      obtain ⟨hs, hf⟩ := evaluate_kick cfg (settings (t0 + (n + 1))) (inp (t0 + (n + 1)))
        (u32 (t0 + (n + 1))) (poll cfg settings inp t0 st (n + 1))
      have hp : 0 < target cfg (settings (t0 + (n + 1))) (inp (t0 + (n + 1)))
          (u32 (t0 + (n + 1))) (poll cfg settings inp t0 st (n + 1)) := hpos (n + 1) hd
      have hpend : (poll cfg settings inp t0 st (n + 1)).fan_kick_end = 0
          ∨ PENDING (u32 (t0 + (n + 1)))
              (poll cfg settings inp t0 st (n + 1)).fan_kick_end = true := by
        right
        rw [ihf, PENDING_iff]
        simp only [sub32, u32]
        omega
      have h := kickstart_override cfg (u32 (t0 + (n + 1))) _ hk (by rw [hs]; exact hp)
        (by rw [hf]; exact hpend)
      refine ⟨h.1, ?_⟩
      rw [h.2, hf]
      by_cases h0 : (poll cfg settings inp t0 st (n + 1)).fan_kick_end = 0
      · refine ⟨n + 1, le_refl _, ?_⟩
        rw [if_pos h0]
        simp only [u32]
        omega
      · exact ⟨e0, by omega, by rw [if_neg h0, ihf]⟩
    · rw [poll_not_due cfg settings inp t0 st hdue n hm]
      exact ⟨ihs, e0, by omega, ihf⟩

/-- The kickstart of a run whose deadline is not the value 0: the deadline is
never rewritten, and after the call at `t0 + n` the speed is the kickstart power
if the last evaluation is the opening one or found the deadline pending, and the
target speed of the last evaluation otherwise. -/
theorem poll_kick_exact (hk : cfg.FAN_KICKSTART_TIME ≠ 0)
    (hnz : u32 (t0 + cfg.FAN_KICKSTART_TIME) ≠ 0)
    (hdue : ELAPSED (u32 t0) st.nextMotorCheck = true) (hclosed : st.fan_kick_end = 0)
    (hpos : ∀ i, ELAPSED (u32 (t0 + i)) (poll cfg settings inp t0 st i).nextMotorCheck = true →
      0 < pollTarget cfg settings inp t0 st i)
    (n : Nat) :
    (poll cfg settings inp t0 st (n + 1)).fan_kick_end = u32 (t0 + cfg.FAN_KICKSTART_TIME)
    ∧ (poll cfg settings inp t0 st (n + 1)).speed
        = if n / 2500 = 0 ∨ PENDING (u32 (t0 + 2500 * (n / 2500)))
              (u32 (t0 + cfg.FAN_KICKSTART_TIME)) = true
          then u8 cfg.FAN_KICKSTART_POWER
          else pollTarget cfg settings inp t0 st (2500 * (n / 2500)) := by
  induction n with
  | zero =>
    rw [poll_one cfg settings inp t0 st hdue, evaluate_fst]
    obtain ⟨hs, hf⟩ := evaluate_kick cfg (settings t0) (inp t0) (u32 t0) st
    have h := kickstart_open cfg (u32 t0) _ hk (hs ▸ hpos 0 hdue) (hf.trans hclosed)
    refine ⟨?_, by simp [h.2]⟩
    rw [h.1]
    simp only [u32]
    omega
  | succ n ih =>
    obtain ⟨ihf, ihs⟩ := ih
    by_cases hm : (n + 1) % 2500 = 0
    · obtain ⟨hd, hstep⟩ := poll_due cfg settings inp t0 st hdue n hm
      have he : 2500 * ((n + 1) / 2500) = n + 1 := by omega
      have hq : ¬ (n + 1) / 2500 = 0 := by omega
      rw [hstep, evaluate_fst, he]
      obtain ⟨hs, hf⟩ := evaluate_kick cfg (settings (t0 + (n + 1))) (inp (t0 + (n + 1)))
        (u32 (t0 + (n + 1))) (poll cfg settings inp t0 st (n + 1))
      have hp : 0 < target cfg (settings (t0 + (n + 1))) (inp (t0 + (n + 1)))
          (u32 (t0 + (n + 1))) (poll cfg settings inp t0 st (n + 1)) := hpos (n + 1) hd
      by_cases hpend : PENDING (u32 (t0 + (n + 1))) (u32 (t0 + cfg.FAN_KICKSTART_TIME)) = true
      · have h := kickstart_pending cfg (u32 (t0 + (n + 1))) _ hk (by rw [hs]; exact hp)
          (by rw [hf, ihf]; exact hnz) (by rw [hf, ihf]; exact hpend)
        refine ⟨by rw [h.1, hf, ihf], ?_⟩
        rw [h.2]
        simp [hpend]
      · have hpf : PENDING (u32 (t0 + (n + 1))) (u32 (t0 + cfg.FAN_KICKSTART_TIME)) = false := by
          simpa using hpend
        have h := kickstart_expired cfg (u32 (t0 + (n + 1))) _ (by rw [hs]; exact hp)
          (by rw [hf, ihf]; exact hnz) (by rw [hf, ihf]; exact hpf)
        rw [h]
        refine ⟨by rw [hf, ihf], ?_⟩
        rw [hs]
        simp [hq, hpf, pollTarget]
    · have hq : (n + 1) / 2500 = n / 2500 := by omega
      rw [poll_not_due cfg settings inp t0 st hdue n hm, hq]
      exact ⟨ihf, ihs⟩

end Polling

/-! ## C8: duration of the kickstart under 1 ms polling -/

/-- In manual mode with idle speed 100 the target speed of `kickCfg` is 100 at
every clock reading, for every reading of the drivers and from every state. -/
theorem manual_target (inp : Inputs) (ms : Nat) (st : State) :
    target kickCfg manualSettings inp ms st = 100 := by
  simp [target, calcSpeed, decideSpeed, set_fan_speed, targetSpeed, manualSettings,
    kickCfg, plainCfg, passThrough, u8, FAN_OFF_PWM]

/-- C8, as stated, fails: polled every millisecond from start-up with a 500 ms
kickstart and a constant target speed of 100, the window opens at 0 (deadline
500, speed 255); at 2 147 485 000 ms, long after `0 + 500 + 2500`, the speed is
again the kickstart power 255 and not the target 100, because the signed 32-bit
test reads the old deadline as pending once more than `2^31` ms have passed. -/
theorem C8_counterexample :
    (poll kickCfg (fun _ => manualSettings) (fun _ => allOff) 0 State.init 1).fan_kick_end
        = 0 + kickCfg.FAN_KICKSTART_TIME
    ∧ (poll kickCfg (fun _ => manualSettings) (fun _ => allOff) 0 State.init 1).speed = 255
    ∧ 0 + kickCfg.FAN_KICKSTART_TIME + 2500 ≤ 2147485000
    ∧ pollTarget kickCfg (fun _ => manualSettings) (fun _ => allOff) 0 State.init
        (2500 * (2147485000 / 2500)) = 100
    ∧ (poll kickCfg (fun _ => manualSettings) (fun _ => allOff) 0 State.init
        (2147485000 + 1)).speed = 255 := by
  have hpos : ∀ i, ELAPSED (u32 (0 + i))
      (poll kickCfg (fun _ => manualSettings) (fun _ => allOff) 0 State.init i).nextMotorCheck
        = true →
      0 < pollTarget kickCfg (fun _ => manualSettings) (fun _ => allOff) 0 State.init i := by
    intro i _
    rw [pollTarget, manual_target]
    decide
  have h0 := poll_kick_exact kickCfg (fun _ => manualSettings) (fun _ => allOff) 0 State.init
    (by decide) (by decide) (by decide) rfl hpos 0
  have h1 := poll_kick_exact kickCfg (fun _ => manualSettings) (fun _ => allOff) 0 State.init
    (by decide) (by decide) (by decide) rfl hpos 2147485000
  refine ⟨h0.1, ?_, by decide, ?_, ?_⟩
  · rw [h0.2]
    decide
  · rw [pollTarget, manual_target]
  · rw [h1.2, if_pos (Or.inr (by decide))]
    decide

/-- C8, amended: with kickstart configured (window at most `2^31` ms) and
`update` polled every millisecond from a due call at `t0` that finds no window
open, the target speed being non-zero at every evaluated tick: the call at `t0`
opens the window; after the call at every time in `[t0, t0 + window)` the speed
is the kickstart power; and, when the deadline `t0 + window` is not the
`millis_t` value 0, after the call at every time from `t0 + window + 2500` up to
`2^31` ms past the deadline the speed is the un-overridden target speed of the
last evaluated tick (the one at the last multiple of 2500 ms after `t0`). -/
theorem C8_kickstart_window (cfg : Config) (settings : Nat → Settings)
    (inp : Nat → Inputs) (t0 : Nat) (st : State)
    (hk : cfg.FAN_KICKSTART_TIME ≠ 0) (hK : cfg.FAN_KICKSTART_TIME ≤ 2 ^ 31)
    (hpow : cfg.FAN_KICKSTART_POWER < 256)
    (hdue : ELAPSED (u32 t0) st.nextMotorCheck = true) (hclosed : st.fan_kick_end = 0)
    (hpos : ∀ i, ELAPSED (u32 (t0 + i)) (poll cfg settings inp t0 st i).nextMotorCheck = true →
      0 < pollTarget cfg settings inp t0 st i) :
    (poll cfg settings inp t0 st 1).fan_kick_end = u32 (t0 + cfg.FAN_KICKSTART_TIME)
    ∧ (∀ n, n < cfg.FAN_KICKSTART_TIME →
        (poll cfg settings inp t0 st (n + 1)).speed = cfg.FAN_KICKSTART_POWER)
    ∧ (u32 (t0 + cfg.FAN_KICKSTART_TIME) ≠ 0 →
        ∀ n, cfg.FAN_KICKSTART_TIME + 2500 ≤ n → n < cfg.FAN_KICKSTART_TIME + 2 ^ 31 →
          ELAPSED (u32 (t0 + 2500 * (n / 2500)))
              (poll cfg settings inp t0 st (2500 * (n / 2500))).nextMotorCheck = true
          ∧ (poll cfg settings inp t0 st (n + 1)).speed
              = pollTarget cfg settings inp t0 st (2500 * (n / 2500))) := by
  have h8 : u8 cfg.FAN_KICKSTART_POWER = cfg.FAN_KICKSTART_POWER := Nat.mod_eq_of_lt hpow
  refine ⟨?_, ?_, ?_⟩
  · obtain ⟨_, e0, he0, hf⟩ :=
      poll_kick_lower cfg settings inp t0 st hk hK hdue hclosed hpos 0 (by omega)
    have : e0 = 0 := by omega
    rw [hf, this, Nat.add_zero]
  · intro n hn
    rw [(poll_kick_lower cfg settings inp t0 st hk hK hdue hclosed hpos n hn).1, h8]
  · intro hnz n hlo hhi
    obtain ⟨m, hm⟩ : ∃ m, 2500 * (n / 2500) = m + 1 := ⟨2500 * (n / 2500) - 1, by omega⟩
    have hmod : (m + 1) % 2500 = 0 := by omega
    refine ⟨?_, ?_⟩
    · rw [hm]
      exact (poll_due cfg settings inp t0 st hdue m hmod).1
    · rw [(poll_kick_exact cfg settings inp t0 st hk hnz hdue hclosed hpos n).2]
      have hq : ¬ n / 2500 = 0 := by omega
      have hp : ¬ PENDING (u32 (t0 + 2500 * (n / 2500)))
          (u32 (t0 + cfg.FAN_KICKSTART_TIME)) = true := by
        rw [PENDING_iff]
        simp only [sub32, u32]
        omega
      simp [hq, hp]

/-- Witness for C8 (amended): a 500 ms kickstart opened at start-up with target
100 still gives 255 after the call at 400 ms and gives 100 after the call at
3000 ms. -/
theorem C8_kickstart_window_witness :
    (poll kickCfg (fun _ => manualSettings) (fun _ => allOff) 0 State.init (400 + 1)).speed
        = 255
    ∧ (poll kickCfg (fun _ => manualSettings) (fun _ => allOff) 0 State.init (3000 + 1)).speed
        = 100 :=
  have hpos : ∀ i, ELAPSED (u32 (0 + i))
      (poll kickCfg (fun _ => manualSettings) (fun _ => allOff) 0 State.init i).nextMotorCheck
        = true →
      0 < pollTarget kickCfg (fun _ => manualSettings) (fun _ => allOff) 0 State.init i :=
    fun i _ => by rw [pollTarget, manual_target]; decide
  have h := C8_kickstart_window kickCfg (fun _ => manualSettings) (fun _ => allOff) 0
    State.init (by decide) (by decide) (by decide) (by decide) rfl hpos
  ⟨h.2.1 400 (by decide),
   ((h.2.2 (by decide) 3000 (by decide) (by decide)).2).trans
     (manual_target allOff _ _)⟩

/-! ## C9: example scenario 1 -/

/-- Settings of scenario 1: automatic mode, 30 s persistence, idle 0, active 255
(the build is `plainCfg`: floor 50, no kickstart). -/
def scenario1Settings : Settings :=
  { active_speed := 255, idle_speed := 0, duration := 30, auto_mode := true }

/-- Readings of scenario 1: the X driver is enabled before 1 s and every driver
is disabled from 1 s onward. -/
def scenario1Inp (t : Nat) : Inputs := if t < 1000 then xOn else allOff

/-- C9 on the code: run from `State.init`, the call at clock reading 0 sees the
motor on and is evaluated, but it latches `lastMotorOn = 0`, the value that
line 87 reads as "never on"; the next evaluation, at 2500 ms (inside 1 s..29 s,
motor off), therefore yields speed 0 and not 255. -/
theorem C9_scenario1_at_zero :
    motor_on plainCfg (scenario1Inp 0) = true
    ∧ ELAPSED 0 State.init.nextMotorCheck = true
    ∧ (update plainCfg scenario1Settings (scenario1Inp 0) 0 State.init).1
        = State.mk 0 2500 0 0
    ∧ ELAPSED 2500 (State.mk 0 2500 0 0).nextMotorCheck = true
    ∧ (update plainCfg scenario1Settings (scenario1Inp 2500) 2500 (State.mk 0 2500 0 0)).1.speed
        = 0
    ∧ (update plainCfg scenario1Settings (scenario1Inp 2500) 2500 (State.mk 0 2500 0 0)).2
        = [Write.pwmDuty Pin.CONTROLLER_FAN_PIN 0, Write.fanPwmSetRatio 0 0,
           Write.fanPwmSetRatio 2 0] := by
  decide

/-- Scenario 1 away from clock reading 0: once the motor has been latched at a
non-zero time `t1` below 1 s, every evaluation with the motor off at a time in
1 s..29 s yields speed 255 and the evaluation at 31 s yields speed 0. -/
theorem scenario1_latched_off_zero (t1 ms : Nat) (st : State) (h0 : 0 < t1)
    (h1 : t1 < 1000) (hst : st.lastMotorOn = t1) :
    (1000 ≤ ms → ms ≤ 29000 →
        (evaluate plainCfg scenario1Settings allOff ms st).1.speed = 255)
    ∧ (evaluate plainCfg scenario1Settings allOff 31000 st).1.speed = 0 := by
  have hoff : (motor_on plainCfg allOff || heater_on plainCfg allOff) = false := by decide
  have hL : ∀ m n, (latch plainCfg allOff m { st with nextMotorCheck := n }).lastMotorOn = t1 := by
    intro m n
    rw [latch_lastMotorOn, hoff]
    simpa using hst
  have hne : t1 ≠ 0 := by omega
  have key : ∀ m v, targetSpeed scenario1Settings m t1 = v → v < 256 →
      (evaluate plainCfg scenario1Settings allOff m st).1.speed
        = u8 (passThrough (if v < 50 then 0 else v)) := by
    intro m v hv hlt
    have hk : ∀ s, kickstart plainCfg m s = s := fun s => by simp [kickstart, plainCfg]
    rw [evaluate_fst, hk]
    simp only [calcSpeed, decideSpeed, set_fan_speed]
    rw [hL, hv]
    simp [plainCfg, u8, Nat.mod_eq_of_lt hlt]
  constructor
  · intro hlo hhi
    have hp : PENDING ms (u32 (t1 + SEC_TO_MS 30)) = true := by
      rw [PENDING_iff]
      simp only [sub32, u32, SEC_TO_MS]
      omega
    have ht : targetSpeed scenario1Settings ms t1 = 255 := by
      simp [targetSpeed, scenario1Settings, hp, hne]
    rw [key ms 255 ht (by decide)]
    decide
  · have hp : PENDING 31000 (u32 (t1 + SEC_TO_MS 30)) = false := by
      rw [Bool.eq_false_iff, Ne, PENDING_iff]
      simp only [sub32, u32, SEC_TO_MS]
      omega
    have ht : targetSpeed scenario1Settings 31000 t1 = 0 := by
      simp [targetSpeed, scenario1Settings, hp]
    rw [key 31000 0 ht (by decide)]
    decide

/-! ## C10: example scenario 2 -/

/-- C10, as stated, fails: with a 500 ms kickstart at power 255 and a constant
target speed of 100, `update` called at 0, 400 and 600 ms from `State.init`
leaves speed 255 after the call at 600 ms, not 100: that call is not due (the
next check is at 2500 ms) and writes nothing. -/
theorem C10_counterexample :
    target kickCfg manualSettings allOff 600
        (update kickCfg manualSettings allOff 400
          (update kickCfg manualSettings allOff 0 State.init).1).1 = 100
    ∧ (update kickCfg manualSettings allOff 600
        (update kickCfg manualSettings allOff 400
          (update kickCfg manualSettings allOff 0 State.init).1).1).1.speed = 255
    ∧ (update kickCfg manualSettings allOff 600
        (update kickCfg manualSettings allOff 400
          (update kickCfg manualSettings allOff 0 State.init).1).1).2 = [] := by
  decide

/-- C10, amended: in scenario 2 the call at 0 opens the kickstart (deadline
500) and outputs 255; the calls at 400 ms and 600 ms are not due, write nothing
and leave the speed at 255; the next due call, at 2500 ms, outputs 100 and
keeps the deadline. -/
theorem C10_scenario2 :
    update kickCfg manualSettings allOff 0 State.init
        = (State.mk 0 2500 255 500, writeOutputs kickCfg allOff 255)
    ∧ update kickCfg manualSettings allOff 400 (State.mk 0 2500 255 500)
        = (State.mk 0 2500 255 500, [])
    ∧ update kickCfg manualSettings allOff 600 (State.mk 0 2500 255 500)
        = (State.mk 0 2500 255 500, [])
    ∧ ELAPSED 2500 (State.mk 0 2500 255 500).nextMotorCheck = true
    ∧ update kickCfg manualSettings allOff 2500 (State.mk 0 2500 255 500)
        = (State.mk 0 5000 100 500, writeOutputs kickCfg allOff 100) := by
  decide

/-! ## C11: the sampler -/

/-- The spec's "some Z-axis driver is enabled": Z, or one of the duplicates
Z2, Z3, Z4 that the build has, reads its enabled level. -/
def zDriverEnabled (cfg : Config) (inp : Inputs) : Prop :=
  inp.Z_ENABLE_READ = cfg.Z_ENABLE_ON
  ∨ (cfg.HAS_Z2_ENABLE = true ∧ inp.Z2_ENABLE_READ = cfg.Z_ENABLE_ON)
  ∨ (cfg.HAS_Z3_ENABLE = true ∧ inp.Z3_ENABLE_READ = cfg.Z_ENABLE_ON)
  ∨ (cfg.HAS_Z4_ENABLE = true ∧ inp.Z4_ENABLE_READ = cfg.Z_ENABLE_ON)

/-- The spec's "some X/Y/duplicate/extruder driver is enabled": X, Y, a
duplicate X2 or Y2 that the build has, or one of the `E_STEPPERS` extruder
drivers reads its enabled level. -/
def otherDriverEnabled (cfg : Config) (inp : Inputs) : Prop :=
  inp.X_ENABLE_READ = cfg.X_ENABLE_ON
  ∨ inp.Y_ENABLE_READ = cfg.Y_ENABLE_ON
  ∨ (cfg.HAS_X2_ENABLE = true ∧ inp.X2_ENABLE_READ = cfg.X_ENABLE_ON)
  ∨ (cfg.HAS_Y2_ENABLE = true ∧ inp.Y2_ENABLE_READ = cfg.Y_ENABLE_ON)
  ∨ ∃ n, n < cfg.E_STEPPERS ∧ inp.E_ENABLE_READ n = cfg.E_ENABLE_ON

/-- The build `plainCfg` with `CONTROLLER_FAN_IGNORE_Z` defined. -/
def ignoreZCfg : Config := { plainCfg with CONTROLLER_FAN_IGNORE_Z := true }

/-- Readings with only the Z driver enabled. -/
def zOn : Inputs := { allOff with Z_ENABLE_READ := false }

theorem motor_on_iff (cfg : Config) (inp : Inputs) :
    motor_on cfg inp = true ↔
      (cfg.CONTROLLER_FAN_IGNORE_Z = false ∧ zDriverEnabled cfg inp)
      ∨ (cfg.CONTROLLER_FAN_USE_Z_ONLY = false ∧ otherDriverEnabled cfg inp) := by
  simp only [motor_on, MOTOR_IS_ON, zDriverEnabled, otherDriverEnabled, Bool.or_eq_true,
    Bool.and_eq_true, Bool.not_eq_true', beq_iff_eq, List.any_eq_true, List.mem_range,
    or_assoc]

/-- C11: the sampled `motor_on` is true exactly when (ignore-Z is not
configured and some Z-axis driver is enabled) or (Z-only is not configured and
some X/Y/duplicate/extruder driver is enabled).  With ignore-Z configured it
does not change when the Z readings are replaced, it is false when no non-Z
driver is enabled, and with both flags configured it is false for every
reading. -/
theorem C11_motor_on_sampler (cfg : Config) (inp : Inputs) :
    (motor_on cfg inp = true ↔
      (cfg.CONTROLLER_FAN_IGNORE_Z = false ∧ zDriverEnabled cfg inp)
      ∨ (cfg.CONTROLLER_FAN_USE_Z_ONLY = false ∧ otherDriverEnabled cfg inp))
    ∧ (cfg.CONTROLLER_FAN_IGNORE_Z = true → ∀ z z2 z3 z4 : Bool,
        motor_on cfg { inp with Z_ENABLE_READ := z, Z2_ENABLE_READ := z2,
                                Z3_ENABLE_READ := z3, Z4_ENABLE_READ := z4 }
          = motor_on cfg inp)
    ∧ (cfg.CONTROLLER_FAN_IGNORE_Z = true → ¬ otherDriverEnabled cfg inp →
        motor_on cfg inp = false)
    ∧ (cfg.CONTROLLER_FAN_IGNORE_Z = true → cfg.CONTROLLER_FAN_USE_Z_ONLY = true →
        motor_on cfg inp = false) := by
  refine ⟨motor_on_iff cfg inp, ?_, ?_, ?_⟩
  · intro hz z z2 z3 z4
    simp [motor_on, hz]
  · intro hz hno
    rw [← Bool.not_eq_true, motor_on_iff]
    simp [hz, hno]
  · intro hz ho
    rw [← Bool.not_eq_true, motor_on_iff]
    simp [hz, ho]

/-- Witness for C11 (example scenario 3): ignore-Z configured, Z-only not, only
the Z driver enabled: `motor_on` is false. -/
theorem C11_motor_on_sampler_witness :
    ignoreZCfg.CONTROLLER_FAN_IGNORE_Z = true
    ∧ ignoreZCfg.CONTROLLER_FAN_USE_Z_ONLY = false
    ∧ zOn.Z_ENABLE_READ = ignoreZCfg.Z_ENABLE_ON
    ∧ motor_on ignoreZCfg zOn = false :=
  ⟨rfl, rfl, rfl,
   (C11_motor_on_sampler ignoreZCfg zOn).2.2.1 rfl (by
     simp [otherDriverEnabled, ignoreZCfg, plainCfg, zOn, allOff])⟩

/-! ## C12: the 2500 ms gate -/

/-- C12: a call that is not due (`ELAPSED(ms, nextMotorCheck)` false, which for
clock values less than `2^31` apart is `ms < nextMotorCheck`) changes no static
and writes nothing; a call that is due leaves `nextMotorCheck = ms + 2500` (as
a `millis_t`). -/
theorem C12_gate_frame (cfg : Config) (settings : Settings) (inp : Inputs)
    (ms : Nat) (st : State) :
    (ELAPSED ms st.nextMotorCheck = false →
        update cfg settings inp ms st = (st, []))
    ∧ (st.nextMotorCheck < 2 ^ 32 → ms < st.nextMotorCheck →
        st.nextMotorCheck - ms ≤ 2 ^ 31 →
        update cfg settings inp ms st = (st, []))
    ∧ (ELAPSED ms st.nextMotorCheck = true →
        (update cfg settings inp ms st).1.nextMotorCheck = u32 (ms + 2500))
    ∧ (ms + 2500 < 2 ^ 32 → ELAPSED ms st.nextMotorCheck = true →
        (update cfg settings inp ms st).1.nextMotorCheck = ms + 2500) := by
  refine ⟨update_of_not_due cfg settings inp ms st, ?_, ?_, ?_⟩
  · intro hn hlt hd
    apply update_of_not_due
    rw [← Bool.not_eq_true, ELAPSED_iff]
    simp only [sub32, u32]
    omega
  · intro hdue
    rw [update_of_due _ _ _ _ _ hdue, evaluate_nextMotorCheck]
  · intro hlt hdue
    rw [update_of_due _ _ _ _ _ hdue, evaluate_nextMotorCheck]
    exact Nat.mod_eq_of_lt hlt

/-- Witness for C12: after the evaluation at 0 the call at 400 ms is not due,
and the call at 2500 ms is due and moves the next check to 5000. -/
theorem C12_gate_frame_witness :
    update kickCfg manualSettings xOn 400 (State.mk 0 2500 255 500)
        = (State.mk 0 2500 255 500, [])
    ∧ (update kickCfg manualSettings xOn 2500 (State.mk 0 2500 255 500)).1.nextMotorCheck
        = 2500 + 2500 :=
  ⟨(C12_gate_frame kickCfg manualSettings xOn 400 (State.mk 0 2500 255 500)).2.1
      (by decide) (by decide) (by decide),
   (C12_gate_frame kickCfg manualSettings xOn 2500 (State.mk 0 2500 255 500)).2.2.2
      (by decide) (by decide)⟩

/-! ## C13: the output sink -/

/-- C13: on an evaluated tick of a build without `FAN_SOFT_PWM`, with `speed`
the value the tick leaves in `ControllerFan::speed`, the writes are, in order:
the primary pin (duty `speed` if it is a PWM pin, else level `speed > 0`), the
secondary pin with the same mapping of the same speed if `CONTROLLER_FAN2_PIN`
is defined, `fan_pwm_set_ratio(0, fan_speed[0])` and
`fan_pwm_set_ratio(2, speed)`. -/
theorem C13_output_sink (cfg : Config) (settings : Settings) (inp : Inputs)
    (ms : Nat) (st : State) (hsoft : cfg.FAN_SOFT_PWM = false)
    (hdue : ELAPSED ms st.nextMotorCheck = true) :
    (update cfg settings inp ms st).2 =
      (if cfg.FAN_PIN_IS_PWM = true
        then Write.pwmDuty Pin.CONTROLLER_FAN_PIN (update cfg settings inp ms st).1.speed
        else Write.digital Pin.CONTROLLER_FAN_PIN
          (decide (0 < (update cfg settings inp ms st).1.speed)))
      :: ((if cfg.HAS_FAN2_PIN = true then
            [if cfg.FAN2_PIN_IS_PWM = true
              then Write.pwmDuty Pin.CONTROLLER_FAN2_PIN (update cfg settings inp ms st).1.speed
              else Write.digital Pin.CONTROLLER_FAN2_PIN
                (decide (0 < (update cfg settings inp ms st).1.speed))]
          else [])
        ++ [Write.fanPwmSetRatio 0 inp.fan_speed0,
            Write.fanPwmSetRatio 2 (update cfg settings inp ms st).1.speed]) := by
  rw [update_of_due _ _ _ _ _ hdue, evaluate_snd]
  simp only [writeOutputs, writePin, hsoft, Bool.false_eq_true, if_false, gt_iff_lt,
    List.cons_append]

/-- A build with a digital primary pin and a PWM secondary pin. -/
def twoPinCfg : Config :=
  { plainCfg with FAN_PIN_IS_PWM := false, HAS_FAN2_PIN := true, FAN2_PIN_IS_PWM := true }

/-- Witness for C13: manual mode at idle speed 100 with extruder fan speed 77:
the digital pin is driven high, the PWM pin gets duty 100, ratio channel 0 gets
77 and channel 2 gets 100. -/
theorem C13_output_sink_witness :
    (update twoPinCfg manualSettings { allOff with fan_speed0 := 77 } 0 State.init).2
      = [Write.digital Pin.CONTROLLER_FAN_PIN true,
         Write.pwmDuty Pin.CONTROLLER_FAN2_PIN 100,
         Write.fanPwmSetRatio 0 77, Write.fanPwmSetRatio 2 100] :=
  (C13_output_sink twoPinCfg manualSettings { allOff with fan_speed0 := 77 } 0 State.init
    rfl (by decide)).trans (by decide)

/-! ## C14: the floored speed reaches the output -/

theorem passThrough_eq (f : Nat) : passThrough f = f := by
  unfold passThrough FAN_OFF_PWM
  by_cases h : f = 0 <;> simp [h]

/-- Without scaling, the target speed tested on line 94 is the floored selected
speed. -/
theorem target_passThrough (cfg : Config) (settings : Settings) (inp : Inputs) (ms : Nat)
    (st : State) (hcalc : cfg.CALC_FAN_SPEED = passThrough)
    (hsel : targetSpeed settings ms (latch cfg inp ms st).lastMotorOn < 256) :
    target cfg settings inp ms st =
      if targetSpeed settings ms (latch cfg inp ms st).lastMotorOn
          < cfg.CONTROLLERFAN_SPEED_MIN then 0
      else targetSpeed settings ms (latch cfg inp ms st).lastMotorOn := by
  have h8 : u8 (targetSpeed settings ms (latch cfg inp ms st).lastMotorOn)
      = targetSpeed settings ms (latch cfg inp ms st).lastMotorOn := Nat.mod_eq_of_lt hsel
  simp only [target, calcSpeed, decideSpeed, set_fan_speed, hcalc, passThrough_eq, h8]
  split
  · rfl
  · exact h8

/-- The kickstart block leaves `speed` alone when it is compiled out, when the
speed is zero, or when the open window has elapsed. -/
theorem kickstart_speed_keep (cfg : Config) (ms : Nat) (s : State)
    (h : cfg.FAN_KICKSTART_TIME = 0 ∨ s.speed = 0
      ∨ (s.fan_kick_end ≠ 0 ∧ PENDING ms s.fan_kick_end = false)) :
    (kickstart cfg ms s).speed = s.speed := by
  rcases h with h | h | ⟨h0, hp⟩
  · simp [kickstart, h]
  · unfold kickstart
    split
    · simp [FAN_OFF_PWM, h]
    · rfl
  · unfold kickstart
    split
    · split
      · simp [h0, hp]
      · rfl
    · rfl

/-- C14: on an evaluated tick of a build whose `CALC_FAN_SPEED` is the unscaled
form, when the kickstart is not overriding (compiled out, floored speed 0, or an
open window that has elapsed), the speed left in `ControllerFan::speed` and
written to the outputs is the floored selected speed: 0 when the selected
active/idle speed is below `CONTROLLERFAN_SPEED_MIN`, the selected speed itself
otherwise. -/
theorem C14_floor_reaches_output (cfg : Config) (settings : Settings) (inp : Inputs)
    (ms : Nat) (st : State) (hcalc : cfg.CALC_FAN_SPEED = passThrough)
    (hdue : ELAPSED ms st.nextMotorCheck = true)
    (hsel : targetSpeed settings ms (latch cfg inp ms st).lastMotorOn < 256)
    (hno : cfg.FAN_KICKSTART_TIME = 0
      ∨ targetSpeed settings ms (latch cfg inp ms st).lastMotorOn
          < cfg.CONTROLLERFAN_SPEED_MIN
      ∨ targetSpeed settings ms (latch cfg inp ms st).lastMotorOn = 0
      ∨ (st.fan_kick_end ≠ 0 ∧ PENDING ms st.fan_kick_end = false)) :
    (targetSpeed settings ms (latch cfg inp ms st).lastMotorOn < cfg.CONTROLLERFAN_SPEED_MIN →
        (update cfg settings inp ms st).1.speed = 0)
    ∧ (cfg.CONTROLLERFAN_SPEED_MIN ≤ targetSpeed settings ms (latch cfg inp ms st).lastMotorOn →
        (update cfg settings inp ms st).1.speed
          = targetSpeed settings ms (latch cfg inp ms st).lastMotorOn)
    ∧ (update cfg settings inp ms st).2
        = writeOutputs cfg inp
            (if targetSpeed settings ms (latch cfg inp ms st).lastMotorOn
                < cfg.CONTROLLERFAN_SPEED_MIN then 0
             else targetSpeed settings ms (latch cfg inp ms st).lastMotorOn) := by
  obtain ⟨hs, hf⟩ := evaluate_kick cfg settings inp ms st
  have ht := target_passThrough cfg settings inp ms st hcalc hsel
  have hkeep : (update cfg settings inp ms st).1.speed =
      if targetSpeed settings ms (latch cfg inp ms st).lastMotorOn
          < cfg.CONTROLLERFAN_SPEED_MIN then 0
      else targetSpeed settings ms (latch cfg inp ms st).lastMotorOn := by
    rw [update_of_due _ _ _ _ _ hdue, evaluate_fst, kickstart_speed_keep, hs, ht]
    rcases hno with h | h | h | h
    · exact Or.inl h
    · exact Or.inr (Or.inl (by rw [hs, ht, if_pos h]))
    · refine Or.inr (Or.inl ?_)
      rw [hs, ht, h]
      split <;> rfl
    · exact Or.inr (Or.inr (by rw [hf]; exact h))
  refine ⟨?_, ?_, ?_⟩
  · intro h
    rw [hkeep, if_pos h]
  · intro h
    rw [hkeep, if_neg (Nat.not_lt.mpr h)]
  · rw [← hkeep, update_of_due _ _ _ _ _ hdue, evaluate_snd]

/-- Witness for C14: no kickstart, floor 50, manual idle speed 100: the tick
leaves 100; with idle speed 0 it leaves 0. -/
theorem C14_floor_reaches_output_witness :
    (update plainCfg manualSettings allOff 0 State.init).1.speed = 100
    ∧ (update plainCfg offSettings allOff 0 State.init).1.speed = 0 :=
  ⟨(C14_floor_reaches_output plainCfg manualSettings allOff 0 State.init rfl
      (by decide) (by decide) (Or.inl rfl)).2.1 (by decide),
   (C14_floor_reaches_output plainCfg offSettings allOff 0 State.init rfl
      (by decide) (by decide) (Or.inl rfl)).1 (by decide)⟩

/-! ## Arbitrary call sequences -/

/-- One call of `update`: the clock reading and what the call reads. -/
structure Call where
  ms : Nat
  settings : Settings
  inp : Inputs

/-- The statics after a sequence of calls of `update`. -/
def run (cfg : Config) : State → List Call → State
  | st, [] => st
  | st, c :: rest => run cfg (update cfg c.settings c.inp c.ms st).1 rest

/-- The clock readings of the calls that `update` evaluated (those that passed
the test on line 54), in order. -/
def evalTimes (cfg : Config) : State → List Call → List Nat
  | _, [] => []
  | st, c :: rest =>
    (if ELAPSED c.ms st.nextMotorCheck then [c.ms] else [])
      ++ evalTimes cfg (update cfg c.settings c.inp c.ms st).1 rest

/-- Every call of the sequence is evaluated and computes a non-zero target
speed. -/
def evaluatedWithTarget (cfg : Config) : State → List Call → Bool
  | _, [] => true
  | st, c :: rest =>
    ELAPSED c.ms st.nextMotorCheck && decide (0 < target cfg c.settings c.inp c.ms st)
      && evaluatedWithTarget cfg (update cfg c.settings c.inp c.ms st).1 rest

theorem run_append (cfg : Config) (st : State) (l1 l2 : List Call) :
    run cfg st (l1 ++ l2) = run cfg (run cfg st l1) l2 := by
  induction l1 generalizing st with
  | nil => rfl
  | cons c rest ih => exact ih _

theorem evaluatedWithTarget_append (cfg : Config) (st : State) (l1 l2 : List Call) :
    evaluatedWithTarget cfg st (l1 ++ l2)
      = (evaluatedWithTarget cfg st l1 && evaluatedWithTarget cfg (run cfg st l1) l2) := by
  induction l1 generalizing st with
  | nil => simp [evaluatedWithTarget, run]
  | cons c rest ih =>
    show (_ && _ && evaluatedWithTarget cfg _ (rest ++ l2)) = _
    rw [ih]
    simp only [evaluatedWithTarget, run, Bool.and_assoc]

/-! ## C15: spacing of the evaluations -/

/-- After an evaluation at `a`, on a clock that neither goes back nor wraps,
the evaluations that follow are each at least 2500 ms after the previous one,
the first of them at least 2500 ms after `a`. -/
theorem evalTimes_chain (cfg : Config) (calls : List Call) :
    ∀ (a : Nat) (st : State), st.nextMotorCheck = u32 (a + 2500) →
      (∀ c ∈ calls, a ≤ c.ms ∧ c.ms < 2 ^ 32) →
      List.Pairwise (fun x y => x ≤ y) (calls.map Call.ms) →
      List.Chain (fun x y => x + 2500 ≤ y) a (evalTimes cfg st calls) := by
  induction calls with
  | nil =>
    intro a st _ _ _
    exact List.Chain.nil
  | cons c rest ih =>
    intro a st hst hrange hmono
    have hc := hrange c (List.mem_cons_self _ _)
    rw [List.map_cons, List.pairwise_cons] at hmono
    by_cases hdue : ELAPSED c.ms st.nextMotorCheck = true
    · have hgap : a + 2500 ≤ c.ms := by
        rw [hst, ELAPSED_iff] at hdue
        simp only [sub32, u32] at hdue
        omega
      have hnext : (update cfg c.settings c.inp c.ms st).1.nextMotorCheck
          = u32 (c.ms + 2500) := by
        rw [update_of_due _ _ _ _ _ hdue, evaluate_nextMotorCheck]
      have htail := ih c.ms _ hnext
        (fun d hd => ⟨hmono.1 d.ms (List.mem_map_of_mem _ hd),
          (hrange d (List.mem_cons_of_mem _ hd)).2⟩) hmono.2
      simp only [evalTimes, hdue, if_true, List.singleton_append]
      exact List.Chain.cons hgap htail
    · have hnd : ELAPSED c.ms st.nextMotorCheck = false := by simpa using hdue
      have htail := ih a st hst
        (fun d hd => hrange d (List.mem_cons_of_mem _ hd)) hmono.2
      simp only [evalTimes, hnd, Bool.false_eq_true, if_false, List.nil_append,
        update_of_not_due _ _ _ _ _ hnd]
      exact htail

/-- C15: for every sequence of calls of `update` whose clock readings are
non-decreasing and below `2^32` (no wrap), from every state, any two consecutive
evaluations are at least 2500 ms apart. -/
theorem C15_evaluations_spaced (cfg : Config) (st : State) (calls : List Call)
    (hmono : List.Pairwise (fun x y => x ≤ y) (calls.map Call.ms))
    (hnowrap : ∀ c ∈ calls, c.ms < 2 ^ 32) :
    List.Chain' (fun x y => x + 2500 ≤ y) (evalTimes cfg st calls) := by
  induction calls generalizing st with
  | nil => exact List.chain'_nil
  | cons c rest ih =>
    rw [List.map_cons, List.pairwise_cons] at hmono
    by_cases hdue : ELAPSED c.ms st.nextMotorCheck = true
    · have hnext : (update cfg c.settings c.inp c.ms st).1.nextMotorCheck
          = u32 (c.ms + 2500) := by
        rw [update_of_due _ _ _ _ _ hdue, evaluate_nextMotorCheck]
      have htail := evalTimes_chain cfg rest c.ms _ hnext
        (fun d hd => ⟨hmono.1 d.ms (List.mem_map_of_mem _ hd),
          hnowrap d (List.mem_cons_of_mem _ hd)⟩) hmono.2
      simp only [evalTimes, hdue, if_true, List.singleton_append]
      exact htail
    · have hnd : ELAPSED c.ms st.nextMotorCheck = false := by simpa using hdue
      simp only [evalTimes, hnd, Bool.false_eq_true, if_false, List.nil_append,
        update_of_not_due _ _ _ _ _ hnd]
      exact ih st hmono.2 (fun d hd => hnowrap d (List.mem_cons_of_mem _ hd))

/-- Calls at 0, 400, 2499, 2500, 2500, 2600 and 6000 ms in manual mode. -/
def burstCalls : List Call :=
  [0, 400, 2499, 2500, 2500, 2600, 6000].map (fun t => Call.mk t manualSettings allOff)

/-- Witness for C15: of the calls in `burstCalls` those at 0, 2500 and 6000 ms
are evaluated. -/
theorem C15_evaluations_spaced_witness :
    evalTimes plainCfg State.init burstCalls = [0, 2500, 6000]
    ∧ List.Chain' (fun x y => x + 2500 ≤ y) (evalTimes plainCfg State.init burstCalls) :=
  ⟨by decide,
   C15_evaluations_spaced plainCfg State.init burstCalls (by decide)
    (by simp [burstCalls])⟩

/-! ## C16: the expired deadline stays set -/

/-- An evaluated tick with a non-zero target speed never rewrites an open
deadline. -/
theorem update_keeps_deadline (cfg : Config) (settings : Settings) (inp : Inputs)
    (ms : Nat) (st : State) (hdue : ELAPSED ms st.nextMotorCheck = true)
    (htarget : 0 < target cfg settings inp ms st) (hopen : st.fan_kick_end ≠ 0) :
    (update cfg settings inp ms st).1.fan_kick_end = st.fan_kick_end := by
  obtain ⟨hs, hf⟩ := evaluate_kick cfg settings inp ms st
  rw [update_of_due _ _ _ _ _ hdue, evaluate_fst]
  by_cases hk : cfg.FAN_KICKSTART_TIME = 0
  · have hid : ∀ s : State, kickstart cfg ms s = s := fun s => by simp [kickstart, hk]
    rw [hid, hf]
  · by_cases hp : PENDING ms st.fan_kick_end = true
    · rw [(kickstart_pending cfg ms _ hk (by rw [hs]; exact htarget)
        (by rw [hf]; exact hopen) (by rw [hf]; exact hp)).1, hf]
    · have hnp : PENDING ms st.fan_kick_end = false := by simpa using hp
      rw [kickstart_expired cfg ms _ (by rw [hs]; exact htarget)
        (by rw [hf]; exact hopen) (by rw [hf]; exact hnp), hf]

/-- Over consecutive evaluated ticks with a non-zero target speed an open
deadline is carried along unchanged. -/
theorem run_keeps_deadline (cfg : Config) (calls : List Call) :
    ∀ st : State, st.fan_kick_end ≠ 0 → evaluatedWithTarget cfg st calls = true →
      (run cfg st calls).fan_kick_end = st.fan_kick_end := by
  induction calls with
  | nil =>
    intro st _ _
    rfl
  | cons c rest ih =>
    intro st hopen hrun
    simp only [evaluatedWithTarget, Bool.and_eq_true, decide_eq_true_eq] at hrun
    obtain ⟨⟨hdue, hpos⟩, hrest⟩ := hrun
    have hkeep := update_keeps_deadline cfg c.settings c.inp c.ms st hdue hpos hopen
    show (run cfg (update cfg c.settings c.inp c.ms st).1 rest).fan_kick_end = _
    rw [ih _ (by rw [hkeep]; exact hopen) hrest, hkeep]

/-- C16: with kickstart configured, from a state whose kickstart window is open
(in particular the state at the first tick that finds it expired), over any
sequence `earlier ++ [c]` of consecutive evaluated ticks with non-zero target
speed: the deadline is never rewritten (no window is opened again) and stays
non-zero, before and after the tick `c`; and if `c` is less than `2^31` ms
after the deadline, `c` leaves the un-overridden target speed in `speed` and
writes the outputs for it. -/
theorem C16_deadline_stays_set (cfg : Config) (st : State) (earlier : List Call)
    (c : Call) (hk : cfg.FAN_KICKSTART_TIME ≠ 0) (hopen : st.fan_kick_end ≠ 0)
    (hrun : evaluatedWithTarget cfg st (earlier ++ [c]) = true) :
    (run cfg st earlier).fan_kick_end = st.fan_kick_end
    ∧ (run cfg st (earlier ++ [c])).fan_kick_end = st.fan_kick_end
    ∧ (run cfg st (earlier ++ [c])).fan_kick_end ≠ 0
    ∧ (sub32 c.ms st.fan_kick_end < 2 ^ 31 →
        (update cfg c.settings c.inp c.ms (run cfg st earlier)).1.speed
            = target cfg c.settings c.inp c.ms (run cfg st earlier)
        ∧ (update cfg c.settings c.inp c.ms (run cfg st earlier)).2
            = writeOutputs cfg c.inp (target cfg c.settings c.inp c.ms (run cfg st earlier))) := by
  have hall := run_keeps_deadline cfg (earlier ++ [c]) st hopen hrun
  rw [evaluatedWithTarget_append, Bool.and_eq_true] at hrun
  obtain ⟨hpre, hlast⟩ := hrun
  have hkeep := run_keeps_deadline cfg earlier st hopen hpre
  simp only [evaluatedWithTarget, Bool.and_eq_true, decide_eq_true_eq, and_true] at hlast
  obtain ⟨hdue, hpos⟩ := hlast
  refine ⟨hkeep, hall, by rw [hall]; exact hopen, ?_⟩
  intro hlt
  have hexp : ELAPSED c.ms (run cfg st earlier).fan_kick_end = true := by
    rw [hkeep, ELAPSED_iff]
    exact hlt
  have hnp : PENDING c.ms (run cfg st earlier).fan_kick_end = false := by
    simpa [ELAPSED] using hexp
  obtain ⟨hs, hf⟩ := evaluate_kick cfg c.settings c.inp c.ms (run cfg st earlier)
  have hstay := kickstart_expired cfg c.ms _ (by rw [hs]; exact hpos)
    (by rw [hf, hkeep]; exact hopen) (by rw [hf]; exact hnp)
  have _ := hk
  rw [← evaluate_fst] at hstay
  rw [update_of_due _ _ _ _ _ hdue, evaluate_snd, hstay, hs]
  exact ⟨rfl, rfl⟩

/-- Evaluated ticks at 2500 and 5000 ms in manual mode (target 100). -/
def steadyCalls : List Call :=
  [2500, 5000].map (fun t => Call.mk t manualSettings allOff)

/-- Witness for C16: a window with deadline 500, found expired at 2500 ms, is
still 500 after the ticks at 2500, 5000 and 7500 ms, and the tick at 7500 ms
outputs the target speed 100. -/
theorem C16_deadline_stays_set_witness :
    (run kickCfg (State.mk 0 2500 255 500)
        (steadyCalls ++ [Call.mk 7500 manualSettings allOff])).fan_kick_end = 500
    ∧ (update kickCfg manualSettings allOff 7500
        (run kickCfg (State.mk 0 2500 255 500) steadyCalls)).1.speed = 100 :=
  have h := C16_deadline_stays_set kickCfg (State.mk 0 2500 255 500) steadyCalls
    (Call.mk 7500 manualSettings allOff) (by decide) (by decide) (by decide)
  ⟨h.2.1, ((h.2.2.2 (by decide)).1).trans (manual_target _ _ _)⟩

/-! ## C17: the latched window and the value 0 -/

/-- C17: on an evaluated tick the speed handed to `set_fan_speed` is
`targetSpeed` at the latched `lastMotorOn`.  With `auto_mode` true, a non-zero
latched `lastMotorOn = T` and `(ms - T) mod 2^32 < duration * 1000 < 2^31` it
is `active_speed`, also when every driver and the heater are off on this tick
and `T` is the stored value.  Whenever the latched `lastMotorOn` is 0 it is
`idle_speed`, also when a driver or the heater is on and the clock reads 0. -/
theorem C17_latched_window (cfg : Config) (settings : Settings) (inp : Inputs)
    (ms : Nat) (st : State) :
    decideSpeed cfg settings inp ms st =
        set_fan_speed cfg (latch cfg inp ms st)
          (targetSpeed settings ms (latch cfg inp ms st).lastMotorOn)
    ∧ (settings.auto_mode = true → (latch cfg inp ms st).lastMotorOn ≠ 0 →
        sub32 ms (latch cfg inp ms st).lastMotorOn < settings.duration * 1000 →
        settings.duration * 1000 < 2 ^ 31 →
        targetSpeed settings ms (latch cfg inp ms st).lastMotorOn = settings.active_speed)
    ∧ (settings.auto_mode = true → motor_on cfg inp = false → heater_on cfg inp = false →
        st.lastMotorOn ≠ 0 →
        sub32 ms st.lastMotorOn < settings.duration * 1000 →
        settings.duration * 1000 < 2 ^ 31 →
        (latch cfg inp ms st).lastMotorOn = st.lastMotorOn
        ∧ targetSpeed settings ms (latch cfg inp ms st).lastMotorOn = settings.active_speed)
    ∧ ((latch cfg inp ms st).lastMotorOn = 0 →
        targetSpeed settings ms (latch cfg inp ms st).lastMotorOn = settings.idle_speed)
    ∧ ((motor_on cfg inp = true ∨ heater_on cfg inp = true) → ms = 0 →
        (latch cfg inp ms st).lastMotorOn = 0
        ∧ targetSpeed settings ms (latch cfg inp ms st).lastMotorOn = settings.idle_speed) := by
  have hact : ∀ T : Nat, settings.auto_mode = true → T ≠ 0 →
      sub32 ms T < settings.duration * 1000 → settings.duration * 1000 < 2 ^ 31 →
      targetSpeed settings ms T = settings.active_speed := by
    intro T hauto hT hlt hD
    have hsec : SEC_TO_MS settings.duration = settings.duration * 1000 := by
      unfold SEC_TO_MS u32
      omega
    have hp := PENDING_of_lt ms T _ (Nat.le_of_lt hD) hlt
    rw [← hsec] at hp
    simp [targetSpeed, hauto, hT, hp]
  have hzero : targetSpeed settings ms 0 = settings.idle_speed := by
    simp [targetSpeed]
  refine ⟨rfl, hact _, ?_, ?_, ?_⟩
  · intro hauto hm hh hT hlt hD
    have hL : (latch cfg inp ms st).lastMotorOn = st.lastMotorOn := by
      rw [latch_lastMotorOn, hm, hh]
      rfl
    exact ⟨hL, by rw [hL]; exact hact _ hauto hT hlt hD⟩
  · intro h0
    rw [h0]
    exact hzero
  · intro hon hms
    have hL : (latch cfg inp ms st).lastMotorOn = 0 := by
      rw [latch_lastMotorOn]
      rcases hon with h | h <;> simp [h, hms]
    exact ⟨hL, by rw [hL]; exact hzero⟩

/-- Witness for C17: 5 s after a latch at 10 s with every driver off the speed
is `active_speed`; with the X driver on at clock reading 0 it is `idle_speed`. -/
theorem C17_latched_window_witness :
    targetSpeed autoSettings 15000
        (latch plainCfg allOff 15000 (State.mk 10000 15000 255 0)).lastMotorOn = 255
    ∧ targetSpeed autoSettings 0 (latch plainCfg xOn 0 State.init).lastMotorOn = 0 :=
  ⟨((C17_latched_window plainCfg autoSettings allOff 15000 (State.mk 10000 15000 255 0)).2.2.1
      rfl (by decide) (by decide) (by decide) (by decide) (by decide)).2,
   ((C17_latched_window plainCfg autoSettings xOn 0 State.init).2.2.2.2
      (Or.inl (by decide)) rfl).2⟩

/-! ## C18: the readings only matter through one boolean -/

/-- C18: two calls of `update` from the same statics, clock reading and
settings, whose readings give the same value of `motor_on || heater_on`, leave
the same statics (`lastMotorOn`, `nextMotorCheck`, `speed`, `fan_kick_end`);
with the same `fan_speed[0]` they also perform the same writes. -/
theorem C18_readings_through_boolean (cfg : Config) (settings : Settings)
    (inp1 inp2 : Inputs) (ms : Nat) (st : State)
    (hb : (motor_on cfg inp1 || heater_on cfg inp1)
        = (motor_on cfg inp2 || heater_on cfg inp2)) :
    (update cfg settings inp1 ms st).1 = (update cfg settings inp2 ms st).1
    ∧ (inp1.fan_speed0 = inp2.fan_speed0 →
        (update cfg settings inp1 ms st).2 = (update cfg settings inp2 ms st).2) := by
  have hlatch : ∀ s : State, latch cfg inp1 ms s = latch cfg inp2 ms s := by
    intro s
    simp only [latch, hb]
  have hfst : (evaluate cfg settings inp1 ms st).1 = (evaluate cfg settings inp2 ms st).1 := by
    simp only [evaluate_fst, decideSpeed, hlatch]
  by_cases hdue : ELAPSED ms st.nextMotorCheck = true
  · rw [update_of_due _ _ _ _ _ hdue, update_of_due _ _ _ _ _ hdue]
    refine ⟨hfst, ?_⟩
    intro hfan
    rw [evaluate_snd, evaluate_snd, hfst]
    simp only [writeOutputs, hfan]
  · have hnd : ELAPSED ms st.nextMotorCheck = false := by simpa using hdue
    rw [update_of_not_due _ _ _ _ _ hnd, update_of_not_due _ _ _ _ _ hnd]
    exact ⟨rfl, fun _ => rfl⟩

/-- Readings with only the Y driver enabled and the bed heater on. -/
def yAndBedOn : Inputs := { allOff with Y_ENABLE_READ := false, soft_pwm_amount := 127 }

/-- Witness for C18: X alone, and Y together with the bed heater, both make the
boolean true and give the same tick. -/
theorem C18_readings_through_boolean_witness :
    (update kickCfg autoSettings xOn 7000 State.init).1
        = (update kickCfg autoSettings yAndBedOn 7000 State.init).1
    ∧ (update kickCfg autoSettings xOn 7000 State.init).2
        = (update kickCfg autoSettings yAndBedOn 7000 State.init).2 :=
  have h := C18_readings_through_boolean kickCfg autoSettings xOn yAndBedOn 7000 State.init
    (by decide)
  ⟨h.1, h.2 rfl⟩

/-! ## Reaching a state whose persistence window has wrapped -/

/-- A call with every monitored driver and the heater off keeps `lastMotorOn`. -/
theorem update_lastMotorOn_off (cfg : Config) (settings : Settings) (inp : Inputs)
    (ms : Nat) (st : State) (hoff : (motor_on cfg inp || heater_on cfg inp) = false) :
    (update cfg settings inp ms st).1.lastMotorOn = st.lastMotorOn := by
  by_cases hdue : ELAPSED ms st.nextMotorCheck = true
  · rw [update_of_due _ _ _ _ _ hdue, evaluate_fst, kickstart_lastMotorOn]
    simp only [calcSpeed, decideSpeed, set_fan_speed, latch_lastMotorOn, hoff]
    rfl
  · have hnd : ELAPSED ms st.nextMotorCheck = false := by simpa using hdue
    rw [update_of_not_due _ _ _ _ _ hnd]

/-- Polled every millisecond with everything off after `t0`, `lastMotorOn`
keeps the value the call at `t0` left. -/
theorem poll_lastMotorOn_off (cfg : Config) (settings : Nat → Settings)
    (inp : Nat → Inputs) (t0 : Nat) (st : State)
    (hoff : ∀ t, t0 < t → (motor_on cfg (inp t) || heater_on cfg (inp t)) = false)
    (n : Nat) :
    (poll cfg settings inp t0 st (n + 1)).lastMotorOn
      = (poll cfg settings inp t0 st 1).lastMotorOn := by
  induction n with
  | zero => rfl
  | succ n ih =>
    rw [poll_succ cfg settings inp t0 st (n + 1),
      update_lastMotorOn_off _ _ _ _ _ (hoff _ (by omega)), ih]

/-- Readings with the X driver enabled at 1000 ms only. -/
def xOnAt1000 (t : Nat) : Inputs := if t = 1000 then xOn else allOff

/-- A run that ends more than `2^31` ms past its persistence window: from
`State.init`, `update` is polled every millisecond from 1000 ms on, the X driver
being enabled at 1000 ms only; the statics that the call at 2 147 546 000 ms
finds have `lastMotorOn = 1000` and `nextMotorCheck = 2 147 546 000`, so that
call is evaluated. -/
theorem wrapped_window_state_reached :
    (poll plainCfg (fun _ => autoSettings) xOnAt1000 1000 State.init
        (2147544999 + 1)).lastMotorOn = 1000
    ∧ (poll plainCfg (fun _ => autoSettings) xOnAt1000 1000 State.init
        (2147544999 + 1)).nextMotorCheck = 2147546000 := by
  constructor
  · rw [poll_lastMotorOn_off]
    · decide
    · intro t ht
      have hne : ¬ t = 1000 := by omega
      simp only [xOnAt1000, hne, if_false]
      decide
  · rw [poll_nextMotorCheck _ _ _ _ _ (by decide)]
    decide

end ControllerFan
